import Mathlib

/-!
# dvb-pids-tune 0.1

A shallow embedding of `dvb-pids-tune-0.1.c` and the properties of its
control sequence: device-path construction, frontend tuning, PES filter
attachment and the status loop.

C strings are lists of characters.  Machine integers are `Int`/`Nat`
with explicit reduction to their width.  The process runs against a
`Device` giving the return value of every system call; everything the
process does that is visible from outside is recorded, in order, in the
`events` of a `World`.
-/

namespace DvbPids

/-! ## Machine integers and C strings -/

/-- A C string, without its terminating NUL. -/
abbrev CStr := List Char

/-- Conversion to `int` (32-bit two's complement). -/
def toI32 (x : Int) : Int := (x + 2147483648) % 4294967296 - 2147483648

/-- Conversion to `unsigned int` / `__u32`. -/
def toU32 (x : Int) : Nat := (x % 4294967296).toNat

/-- Conversion to `__u16` / `uint16_t`. -/
def toU16 (x : Int) : Nat := (x % 65536).toNat

/-! ## The C library: `atoi`, formatted output -/

/-- The `isspace` class of the C locale. -/
def isspace (c : Char) : Bool :=
  c = ' ' || c = '\t' || c = '\n' || c = '\x0b' || c = '\x0c' || c = '\r'

/-- Value of the longest run of decimal digits at the head of `s`,
continuing from `acc`. -/
def digitRun : CStr → Nat → Nat
  | [], acc => acc
  | c :: cs, acc =>
    if c.isDigit then digitRun cs (acc * 10 + (c.toNat - 48)) else acc

/-- The libc call `strtol(s, NULL, 10)` on a 64-bit `long`: leading white
space, an optional sign, a run of digits; out-of-range values saturate. -/
def strtol (s : CStr) : Int :=
  match s.dropWhile isspace with
  | '-' :: cs => max (-9223372036854775808) (-(digitRun cs 0 : Int))
  | '+' :: cs => min 9223372036854775807 (digitRun cs 0 : Int)
  | cs => min 9223372036854775807 (digitRun cs 0 : Int)

/-- The libc call `atoi(s)`, which is `(int) strtol(s, NULL, 10)`. -/
def atoi (s : CStr) : Int := toI32 (strtol s)

/-- Conversion `%d` / `%i` of an `int`. -/
def fmt_d (i : Int) : CStr :=
  if i < 0 then '-' :: Nat.toDigits 10 i.natAbs else Nat.toDigits 10 i.toNat

/-- Conversion `%0Nx` of an `unsigned int`: lowercase hexadecimal,
left-padded with zeros to at least `width` characters. -/
def fmt_0x (width : Nat) (u : Nat) : CStr :=
  let ds := Nat.toDigits 16 u
  List.replicate (width - ds.length) '0' ++ ds

/-- The call `snprintf(buf, size, ...)` whose fully formatted text is
`text`: the return value is the length of `text`, the buffer receives at
most `size - 1` characters of it. -/
def snprintf (size : Nat) (text : CStr) : Int × CStr :=
  ((text.length : Int), text.take (size - 1))

/-! ## The process and its environment -/

/-- Access mode passed to `open`. -/
inductive OFlag
  | O_RDONLY
  | O_RDWR
  deriving DecidableEq, Repr

/-- Values of `fe_modulation_t` (from `linux/dvb/frontend.h`). -/
inductive fe_modulation
  | QPSK | QAM_16 | QAM_32 | QAM_64 | QAM_128 | QAM_256 | QAM_AUTO | VSB_8 | VSB_16
  deriving DecidableEq, Repr

/-- The fields of `struct dvb_frontend_parameters` that `setup_frontend`
assigns. -/
structure dvb_frontend_parameters where
  frequency : Nat
  modulation : fe_modulation
  deriving DecidableEq, Repr

/-- Values of `dmx_input_t`. -/
inductive dmx_input
  | DMX_IN_FRONTEND | DMX_IN_DVR
  deriving DecidableEq, Repr

/-- Values of `dmx_output_t`. -/
inductive dmx_output
  | DMX_OUT_DECODER | DMX_OUT_TAP | DMX_OUT_TS_TAP
  deriving DecidableEq, Repr

/-- Values of `dmx_pes_type_t` used here. -/
inductive dmx_pes_type
  | DMX_PES_AUDIO | DMX_PES_VIDEO | DMX_PES_TELETEXT | DMX_PES_SUBTITLE | DMX_PES_PCR
  | DMX_PES_OTHER
  deriving DecidableEq, Repr

/-- Flag bits of a demux filter. -/
inductive dmx_flags
  | DMX_CHECK_CRC | DMX_ONESHOT | DMX_IMMEDIATE_START
  deriving DecidableEq, Repr

/-- The data of `struct dmx_pes_filter_params`; `pid` is a `__u16`. -/
structure dmx_pes_filter_params where
  pid : Nat
  input : dmx_input
  output : dmx_output
  pes_type : dmx_pes_type
  flags : dmx_flags
  deriving DecidableEq, Repr

/-- An `ioctl` request together with the argument the program passes. -/
inductive Request
  | FE_SET_FRONTEND (fe_params : dvb_frontend_parameters)
  | DMX_SET_PES_FILTER (pes_filter_params : dmx_pes_filter_params)
  | FE_READ_STATUS
  | FE_READ_SIGNAL_STRENGTH
  | FE_READ_SNR
  | FE_READ_BER
  | FE_READ_UNCORRECTED_BLOCKS
  deriving DecidableEq, Repr

/-- What the process does that can be seen from outside, one event per
library or system call. -/
inductive Event
  | getenv (name : CStr)
  | stdout (text : CStr)
  | stderr (text : CStr)
  | sys_open (path : CStr) (flags : OFlag)
  | sys_ioctl (fd : Int) (req : Request)
  | usleep (usecs : Nat)
  deriving DecidableEq, Repr

/-- The kernel side of the system calls.  The process is sequential and
deterministic, so the answer to a call is given by its position among the
calls of its kind: `open_ret n` is what the `n`-th `open` returns (counting
from 0), `ioctl_ret n` what the `n`-th `ioctl` returns, and `ioctl_out n` what
the variable passed to the `n`-th `ioctl` holds after the call. -/
structure Device where
  open_ret : Nat → Int
  ioctl_ret : Nat → Int
  ioctl_out : Nat → Nat

/-- State of the run: the events so far and the number of `open` and
`ioctl` calls made. -/
structure World where
  events : List Event
  opens : Nat
  ioctls : Nat
  deriving DecidableEq, Repr

/-- Record an event that does not involve the device. -/
def World.emit (w : World) (e : Event) : World :=
  { w with events := w.events ++ [e] }

/-- The system call `open(path, flags)`. -/
def sys_open (dev : Device) (w : World) (path : CStr) (flags : OFlag) : Int × World :=
  (dev.open_ret w.opens,
   { events := w.events ++ [Event.sys_open path flags], opens := w.opens + 1,
     ioctls := w.ioctls })

/-- The system call `ioctl(fd, req, &arg)`; the return value. -/
def sys_ioctl (dev : Device) (w : World) (fd : Int) (req : Request) : Int × World :=
  (dev.ioctl_ret w.ioctls,
   { events := w.events ++ [Event.sys_ioctl fd req], opens := w.opens,
     ioctls := w.ioctls + 1 })

/-- The system call `ioctl(fd, req, &var)` with its return value dropped;
the content of `var` after the call. -/
def sys_ioctl_out (dev : Device) (w : World) (fd : Int) (req : Request) : Nat × World :=
  (dev.ioctl_out w.ioctls, (sys_ioctl dev w fd req).2)

/-- How a run ends: `main` returns a status, or it is inside the `do`
loop of `loop_status`, which has no exit. -/
inductive Outcome
  | exit (status : Int)
  | polling
  deriving DecidableEq, Repr

/-! ## The program -/

/-- `#define PATH_ADAPTER` -/
def PATH_ADAPTER : CStr := "/dev/dvb/adapter".toList

/-- `#define STR_ERR` -/
def STR_ERR : CStr := "error: ".toList

/-- Bit `FE_HAS_LOCK` of `fe_status_t` (from `linux/dvb/frontend.h`). -/
def FE_HAS_LOCK : Nat := 0x10

/-- The text of the format `PATH_ADAPTER "%d/frontend%d"` of `main`. -/
def fmt_frontend (id_adapter id_frontend : Int) : CStr :=
  PATH_ADAPTER ++ fmt_d id_adapter ++ "/frontend".toList ++ fmt_d id_frontend

/-- The text of the format `PATH_ADAPTER "%d/demux%d"` of `main`. -/
def fmt_demux (id_adapter id_demux : Int) : CStr :=
  PATH_ADAPTER ++ fmt_d id_adapter ++ "/demux".toList ++ fmt_d id_demux

/-- `int setup_frontend( char *dev_frontend, int fe_frequency )` -/
def setup_frontend (dev : Device) (w : World) (dev_frontend : CStr) (fe_frequency : Int) :
    Int × World :=
  let o := sys_open dev w dev_frontend OFlag.O_RDWR
  if o.1 < 0 then
    (-1, o.2.emit (Event.stderr
      (STR_ERR ++ "failed opening '".toList ++ dev_frontend ++ "'\n".toList)))
  else
    let fe_params : dvb_frontend_parameters :=
      { frequency := toU32 fe_frequency, modulation := fe_modulation.VSB_8 }
    let w1 := o.2.emit (Event.stdout
      ("tuning: ".toList ++ fmt_d fe_frequency ++ " Hz\n".toList))
    let r := sys_ioctl dev w1 o.1 (Request.FE_SET_FRONTEND fe_params)
    if r.1 < 0 then
      (-1, r.2.emit (Event.stderr (STR_ERR ++ "ioctl(FE_SET_FRONTEND) failed\n".toList)))
    else
      (o.1, r.2)

/-- `int add_pes_filter( char *dev_demux, int pid )` -/
def add_pes_filter (dev : Device) (w : World) (dev_demux : CStr) (pid : Int) : Int × World :=
  let w0 := w.emit (Event.stdout
    ("adding: pid ".toList ++ fmt_d pid ++ " (0x".toList ++ fmt_0x 4 (toU32 pid)
      ++ ")\n".toList))
  let o := sys_open dev w0 dev_demux OFlag.O_RDONLY
  if o.1 < 0 then
    (-1, o.2.emit (Event.stderr
      (STR_ERR ++ "failed opening '".toList ++ dev_demux ++ "'\n".toList)))
  else
    let pes_filter_params : dmx_pes_filter_params :=
      { pid := toU16 pid, input := dmx_input.DMX_IN_FRONTEND,
        output := dmx_output.DMX_OUT_TS_TAP, pes_type := dmx_pes_type.DMX_PES_OTHER,
        flags := dmx_flags.DMX_IMMEDIATE_START }
    let r := sys_ioctl dev o.2 o.1 (Request.DMX_SET_PES_FILTER pes_filter_params)
    if r.1 < 0 then
      (-1, r.2.emit (Event.stderr
        (STR_ERR ++ "ioctl(DMX_SET_PES_FILTER) for pid ".toList ++ fmt_d pid
          ++ " (0x".toList ++ fmt_0x 4 (toU32 pid) ++ ") failed\n".toList)))
    else
      (o.1, r.2)

/-- The interval computed at the head of `loop_status` from the value of
`getenv( "DVB_STATUS_USECS" )`: `i` and `usecs` are `unsigned int`. -/
def status_usecs (env_tmp : Option CStr) : Nat :=
  match env_tmp with
  | none => 1000000
  | some s =>
    let i : Nat := toU32 (atoi s)
    if i > 0 then i else 1000000

/-- The text of the `printf` of the status loop, on the values of its
arguments. -/
def status_line (fe_status fe_signal fe_snr fe_ber fe_ub : Nat) : CStr :=
  "status ".toList ++ fmt_0x 2 fe_status ++ " | signal ".toList ++ fmt_0x 4 fe_signal
    ++ " | snr ".toList ++ fmt_0x 4 fe_snr ++ " | ber ".toList ++ fmt_0x 8 fe_ber
    ++ " | unc ".toList ++ fmt_0x 8 fe_ub ++ " | ".toList
    ++ (if fe_status &&& FE_HAS_LOCK ≠ 0 then "FE_HAS_LOCK".toList else [])
    ++ "\n".toList

/-- One pass through the body of the `do` loop of `loop_status`:
`fe_status`, `fe_ber`, `fe_ub` are 32 bits wide, `fe_signal`, `fe_snr` 16. -/
def loop_status_body (dev : Device) (w : World) (fd_frontend : Int) (usecs : Nat) : World :=
  let s := sys_ioctl_out dev w fd_frontend Request.FE_READ_STATUS
  let g := sys_ioctl_out dev s.2 fd_frontend Request.FE_READ_SIGNAL_STRENGTH
  let n := sys_ioctl_out dev g.2 fd_frontend Request.FE_READ_SNR
  let b := sys_ioctl_out dev n.2 fd_frontend Request.FE_READ_BER
  let u := sys_ioctl_out dev b.2 fd_frontend Request.FE_READ_UNCORRECTED_BLOCKS
  let w1 := u.2.emit (Event.stdout
    (status_line (s.1 % 4294967296) (g.1 % 65536) (n.1 % 65536) (b.1 % 4294967296)
      (u.1 % 4294967296)))
  w1.emit (Event.usleep usecs)

/-- The `do { ... } while( 1 )` of `loop_status`, observed for `fuel`
passes. -/
def loop_status_do (dev : Device) (fd_frontend : Int) (usecs : Nat) : Nat → World → World
  | 0, w => w
  | fuel + 1, w => loop_status_do dev fd_frontend usecs fuel
      (loop_status_body dev w fd_frontend usecs)

/-- `void loop_status( int fd_frontend )`, observed for `fuel` passes of
its loop. -/
def loop_status (dev : Device) (env : CStr → Option CStr) (w : World) (fd_frontend : Int)
    (fuel : Nat) : World :=
  let env_tmp := env "DVB_STATUS_USECS".toList
  let w0 := w.emit (Event.getenv "DVB_STATUS_USECS".toList)
  loop_status_do dev fd_frontend (status_usecs env_tmp) fuel w0

/-- The pattern `env_tmp = getenv( name ); if ( env_tmp ) id = atoi( env_tmp );`
of `main`, on a variable initialised to 0. -/
def getenv_id (env : CStr → Option CStr) (name : CStr) : Int :=
  match env name with
  | none => 0
  | some env_tmp => atoi env_tmp

/-- The statement `for ( i = 2; i < argc; i++ ) { ... }` of `main`, on the
arguments `argv[i], ..., argv[argc-1]` still to be visited: `some status` when
the body returns from `main`, `none` when the loop runs to its end. -/
def main_for (dev : Device) (dev_demux : CStr) : List CStr → World → Option Int × World
  | [], w => (none, w)
  | arg :: rest, w =>
    let pid := atoi arg
    if pid ≤ 0 ∨ pid ≥ 0x1fff then
      (some 2, w.emit (Event.stderr
        (STR_ERR ++ "pid out of range: ".toList ++ fmt_d pid ++ "\n".toList)))
    else
      let a := add_pes_filter dev w dev_demux pid
      if a.1 < 0 then
        (some 2, a.2.emit (Event.stderr
          (STR_ERR ++ "failed adding pes filter for pid ".toList ++ fmt_d pid
            ++ " ('".toList ++ arg ++ "')\n".toList)))
      else
        main_for dev dev_demux rest a.2

/-- `int main( int argc, char **argv )`, with `argc = argv.length`, the
environment `env`, against the device `dev`; `fuel` bounds the passes of the
status loop that are observed. -/
def main (argv : List CStr) (env : CStr → Option CStr) (dev : Device) (fuel : Nat) :
    Outcome × World :=
  let w : World := { events := [], opens := 0, ioctls := 0 }
  if argv.length < 3 then
    (Outcome.exit 1, w.emit (Event.stdout
      ("usage: ".toList ++ argv.headD "(null)".toList
        ++ " <frequency> <pid> [pid..]\n".toList)))
  else
    let w := w.emit (Event.getenv "DVB_ADAPTER".toList)
    let id_adapter := getenv_id env "DVB_ADAPTER".toList
    let w := w.emit (Event.getenv "DVB_FRONTEND".toList)
    let id_frontend := getenv_id env "DVB_FRONTEND".toList
    let w := w.emit (Event.getenv "DVB_DEMUX".toList)
    let id_demux := getenv_id env "DVB_DEMUX".toList
    let sf := snprintf 32 (fmt_frontend id_adapter id_frontend)
    if sf.1 ≤ 0 then (Outcome.exit 3, w)
    else
      let dev_frontend := sf.2
      let sd := snprintf 32 (fmt_demux id_adapter id_demux)
      if sd.1 ≤ 0 then (Outcome.exit 3, w)
      else
        let dev_demux := sd.2
        let w := w.emit (Event.stdout ("frontend: '".toList ++ dev_frontend ++ "'\n".toList))
        let w := w.emit (Event.stdout ("demux: '".toList ++ dev_demux ++ "'\n".toList))
        let fe_frequency : Nat := toU32 (atoi (argv.getD 1 []))
        let f := setup_frontend dev w dev_frontend (toI32 fe_frequency)
        if f.1 < 0 then
          (Outcome.exit 2, f.2.emit (Event.stderr
            (STR_ERR ++ "failed setting up frontend\n".toList)))
        else
          match main_for dev dev_demux (argv.drop 2) f.2 with
          | (some status, w) => (Outcome.exit status, w)
          | (none, w) => (Outcome.polling, loop_status dev env w f.1 fuel)

/-! ## Observations on a run, and the vocabulary of the statements -/

/-- The device calls (`open` and `ioctl`) among the events, in order. -/
def device_calls (es : List Event) : List Event :=
  es.filter fun e =>
    match e with
    | Event.sys_open _ _ => true
    | Event.sys_ioctl _ _ => true
    | _ => false

/-- The texts written to the error stream, in order. -/
def stderr_texts (es : List Event) : List CStr :=
  es.filterMap fun e =>
    match e with
    | Event.stderr t => some t
    | _ => none

/-- The `pid` fields of the filters passed to `DMX_SET_PES_FILTER`, in
order. -/
def installed_pids (es : List Event) : List Nat :=
  es.filterMap fun e =>
    match e with
    | Event.sys_ioctl _ (Request.DMX_SET_PES_FILTER p) => some p.pid
    | _ => none

/-- The frontend path `main` works with under the environment `env`. -/
def dev_frontend (env : CStr → Option CStr) : CStr :=
  (snprintf 32 (fmt_frontend (getenv_id env "DVB_ADAPTER".toList)
    (getenv_id env "DVB_FRONTEND".toList))).2

/-- The demux path `main` works with under the environment `env`. -/
def dev_demux (env : CStr → Option CStr) : CStr :=
  (snprintf 32 (fmt_demux (getenv_id env "DVB_ADAPTER".toList)
    (getenv_id env "DVB_DEMUX".toList))).2

/-- The filter `add_pes_filter` builds for an identifier in the 16-bit
range. -/
def pes_filter (pid : Nat) : dmx_pes_filter_params :=
  { pid := pid, input := dmx_input.DMX_IN_FRONTEND, output := dmx_output.DMX_OUT_TS_TAP,
    pes_type := dmx_pes_type.DMX_PES_OTHER, flags := dmx_flags.DMX_IMMEDIATE_START }

/-- Device calls of successful attachments of the identifiers `pids` in
order, the first of them answered by the `n`-th `open`: per identifier one
`open` of the demux and one `DMX_SET_PES_FILTER` on the handle it returned. -/
def attach_calls (dev : Device) (demux : CStr) : Nat → List Int → List Event
  | _, [] => []
  | n, pid :: pids =>
    Event.sys_open demux OFlag.O_RDONLY
      :: Event.sys_ioctl (dev.open_ret n) (Request.DMX_SET_PES_FILTER (pes_filter pid.toNat))
      :: attach_calls dev demux (n + 1) pids

/-- The five status queries of one pass of the status loop. -/
def status_reads (fd : Int) : List Event :=
  [Event.sys_ioctl fd Request.FE_READ_STATUS,
   Event.sys_ioctl fd Request.FE_READ_SIGNAL_STRENGTH,
   Event.sys_ioctl fd Request.FE_READ_SNR,
   Event.sys_ioctl fd Request.FE_READ_BER,
   Event.sys_ioctl fd Request.FE_READ_UNCORRECTED_BLOCKS]

/-- Device calls of `n` passes of the status loop. -/
def status_calls (fd : Int) : Nat → List Event
  | 0 => []
  | n + 1 => status_reads fd ++ status_calls fd n

/-- The announcement `add_pes_filter` prints for `pid`. -/
def announcement (pid : Int) : CStr :=
  "adding: pid ".toList ++ fmt_d pid ++ " (0x".toList ++ fmt_0x 4 (toU32 pid) ++ ")\n".toList

/-- Everything a successful `add_pes_filter` adds to the events. -/
def attach_events (dev : Device) (demux : CStr) (n : Nat) (pid : Int) : List Event :=
  [Event.stdout (announcement pid), Event.sys_open demux OFlag.O_RDONLY,
   Event.sys_ioctl (dev.open_ret n) (Request.DMX_SET_PES_FILTER (pes_filter (toU16 pid)))]

/-- Everything successful attachments of the arguments `args` add to the
events, the first of them answered by the `n`-th `open`. -/
def attach_all_events (dev : Device) (demux : CStr) : Nat → List CStr → List Event
  | _, [] => []
  | n, arg :: rest =>
    attach_events dev demux n (atoi arg) ++ attach_all_events dev demux (n + 1) rest

/-- What `main` adds to the events before it calls `setup_frontend`. -/
def startup_events (env : CStr → Option CStr) : List Event :=
  [Event.getenv "DVB_ADAPTER".toList, Event.getenv "DVB_FRONTEND".toList,
   Event.getenv "DVB_DEMUX".toList,
   Event.stdout ("frontend: '".toList ++ dev_frontend env ++ "'\n".toList),
   Event.stdout ("demux: '".toList ++ dev_demux env ++ "'\n".toList)]

/-- The frequency `main` passes on: `atoi( argv[1] )` stored in a `__u32`. -/
def fe_frequency (argv : List CStr) : Nat := toU32 (atoi (argv.getD 1 []))

/-- What a successful `setup_frontend` adds to the events. -/
def tune_events (dev : Device) (frontend : CStr) (n : Nat) (freq : Int) : List Event :=
  [Event.sys_open frontend OFlag.O_RDWR,
   Event.stdout ("tuning: ".toList ++ fmt_d freq ++ " Hz\n".toList),
   Event.sys_ioctl (dev.open_ret n)
     (Request.FE_SET_FRONTEND { frequency := toU32 freq, modulation := fe_modulation.VSB_8 })]

/-- A device on which every call succeeds: `open` returns the descriptors
3, 4, 5, ... and `ioctl` returns 0. -/
def okDev : Device :=
  { open_ret := fun n => 3 + n, ioctl_ret := fun _ => 0, ioctl_out := fun _ => 0 }

/-- The empty environment. -/
def noEnv : CStr → Option CStr := fun _ => none

/-- The state of the run after a successful `setup_frontend` and the
successful attachment of the first `k` identifiers. -/
def world_after (argv : List CStr) (env : CStr → Option CStr) (dev : Device) (k : Nat) :
    World :=
  { events := startup_events env
      ++ tune_events dev (dev_frontend env) 0 (toI32 (fe_frequency argv))
      ++ attach_all_events dev (dev_demux env) 1 ((argv.drop 2).take k),
    opens := k + 1, ioctls := k + 1 }

/-- Exactly four lowercase hexadecimal digits of `n`, most significant
first. -/
def hex4 (n : Nat) : CStr :=
  [Nat.digitChar (n / 4096 % 16), Nat.digitChar (n / 256 % 16), Nat.digitChar (n / 16 % 16),
   Nat.digitChar (n % 16)]

/-- The path template of the device tree: root, adapter index in decimal,
endpoint kind, endpoint index in decimal. -/
def path_template (a : Nat) (kind : CStr) (i : Nat) : CStr :=
  "/dev/dvb/adapter".toList ++ (Nat.repr a).toList ++ kind ++ (Nat.repr i).toList

/-- The arguments of `usleep`, in order. -/
def sleeps (es : List Event) : List Nat :=
  es.filterMap fun e =>
    match e with
    | Event.usleep n => some n
    | _ => none

/-- An environment with the single variable `name` set to `value`. -/
def env1 (name value : String) : CStr → Option CStr :=
  fun n => if n = name.toList then some value.toList else none

/-- Diagnostic of `main` for an identifier out of range. -/
def err_range (pid : Int) : CStr :=
  STR_ERR ++ "pid out of range: ".toList ++ fmt_d pid ++ "\n".toList

/-- Diagnostic of `setup_frontend` and `add_pes_filter` for a failed
`open`. -/
def err_open (path : CStr) : CStr :=
  STR_ERR ++ "failed opening '".toList ++ path ++ "'\n".toList

/-- Diagnostic of `setup_frontend` for a failed `FE_SET_FRONTEND`. -/
def err_tune : CStr := STR_ERR ++ "ioctl(FE_SET_FRONTEND) failed\n".toList

/-- Diagnostic of `main` for a failed `setup_frontend`. -/
def err_frontend : CStr := STR_ERR ++ "failed setting up frontend\n".toList

/-- Diagnostic of `add_pes_filter` for a failed `DMX_SET_PES_FILTER`. -/
def err_filter (pid : Int) : CStr :=
  STR_ERR ++ "ioctl(DMX_SET_PES_FILTER) for pid ".toList ++ fmt_d pid
    ++ " (0x".toList ++ fmt_0x 4 (toU32 pid) ++ ") failed\n".toList

/-- Diagnostic of `main` for a failed `add_pes_filter`. -/
def err_add (pid : Int) (arg : CStr) : CStr :=
  STR_ERR ++ "failed adding pes filter for pid ".toList ++ fmt_d pid
    ++ " ('".toList ++ arg ++ "')\n".toList

/-- The identifier at position `j` (counted from 0 after the frequency). -/
def pid_at (argv : List CStr) (j : Nat) : Int := atoi (argv.getD (j + 2) [])

/-- A device on which the `open` calls numbered in `opens` and the
`ioctl` calls numbered in `ioctls` fail and every other call succeeds. -/
def failDev (opens ioctls : List Nat) : Device :=
  { open_ret := fun n => if n ∈ opens then -1 else 3 + n,
    ioctl_ret := fun n => if n ∈ ioctls then -1 else 0,
    ioctl_out := fun _ => 0 }

/-- The argument vector of `dvb-pids-tune` called with the arguments
`l`. -/
def args (l : List String) : List CStr :=
  "dvb-pids-tune".toList :: l.map String.toList

/-- The identifier at position `j` is in range and its `open` and `ioctl`
succeed. -/
def attaches (dev : Device) (argv : List CStr) (j : Nat) : Prop :=
  (0 < pid_at argv j ∧ pid_at argv j < 0x1fff) ∧
    0 ≤ dev.open_ret (j + 1) ∧ 0 ≤ dev.ioctl_ret (j + 1)

/-! ## Basic facts about the embedding -/

theorem toU32_toI32_toU32 (x : Int) : toU32 (toI32 (toU32 x)) = toU32 x := by
  unfold toU32 toI32
  omega

theorem toU16_of_range {pid : Int} (h0 : 0 ≤ pid) (h1 : pid < 65536) :
    toU16 pid = pid.toNat := by
  unfold toU16
  omega

theorem snprintf_frontend_pos (size : Nat) (a f : Int) :
    ¬ (snprintf size (fmt_frontend a f)).1 ≤ 0 := by
  have h : PATH_ADAPTER.length = 16 := by decide
  simp only [snprintf, fmt_frontend, List.length_append, h]
  omega

theorem snprintf_demux_pos (size : Nat) (a d : Int) :
    ¬ (snprintf size (fmt_demux a d)).1 ≤ 0 := by
  have h : PATH_ADAPTER.length = 16 := by decide
  simp only [snprintf, fmt_demux, List.length_append, h]
  omega

theorem add_pes_filter_ok (dev : Device) (w : World) (demux : CStr) (pid : Int)
    (ho : 0 ≤ dev.open_ret w.opens) (hi : 0 ≤ dev.ioctl_ret w.ioctls) :
    add_pes_filter dev w demux pid =
      (dev.open_ret w.opens,
       { events := w.events ++ attach_events dev demux w.opens pid,
         opens := w.opens + 1, ioctls := w.ioctls + 1 }) := by
  simp [add_pes_filter, sys_open, sys_ioctl, World.emit, attach_events, announcement,
    pes_filter, not_lt.mpr ho, not_lt.mpr hi]

theorem main_for_ok (dev : Device) (demux : CStr) (pre rest : List CStr) :
    ∀ w : World,
      (∀ j, j < pre.length →
        (0 < atoi (pre.getD j []) ∧ atoi (pre.getD j []) < 0x1fff) ∧
        0 ≤ dev.open_ret (w.opens + j) ∧ 0 ≤ dev.ioctl_ret (w.ioctls + j)) →
      main_for dev demux (pre ++ rest) w =
        main_for dev demux rest
          { events := w.events ++ attach_all_events dev demux w.opens pre,
            opens := w.opens + pre.length, ioctls := w.ioctls + pre.length } := by
  induction pre with
  | nil => intro w _; simp [attach_all_events]
  | cons a pre ih =>
    intro w h
    have h0 := h 0 (by simp)
    simp only [List.getD_cons_zero, Nat.add_zero] at h0
    obtain ⟨⟨hlo, hhi⟩, ho, hi⟩ := h0
    have hr : ¬ (atoi a ≤ 0 ∨ atoi a ≥ 0x1fff) := by omega
    rw [List.cons_append, main_for]
    simp only [hr, if_false, add_pes_filter_ok dev w demux (atoi a) ho hi, not_lt.mpr ho]
    rw [ih]
    · simp [attach_all_events, Nat.add_assoc, Nat.add_comm 1]
    · intro j hj
      have := h (j + 1) (by simpa using hj)
      simpa [Nat.add_assoc, Nat.add_comm 1] using this

theorem main_of_argc (argv : List CStr) (env : CStr → Option CStr) (dev : Device)
    (fuel : Nat) (hargc : 3 ≤ argv.length) :
    main argv env dev fuel =
      if (setup_frontend dev { events := startup_events env, opens := 0, ioctls := 0 }
            (dev_frontend env) (toI32 (fe_frequency argv))).1 < 0 then
        (Outcome.exit 2,
          (setup_frontend dev { events := startup_events env, opens := 0, ioctls := 0 }
            (dev_frontend env) (toI32 (fe_frequency argv))).2.emit
              (Event.stderr (STR_ERR ++ "failed setting up frontend\n".toList)))
      else
        match main_for dev (dev_demux env) (argv.drop 2)
          (setup_frontend dev { events := startup_events env, opens := 0, ioctls := 0 }
            (dev_frontend env) (toI32 (fe_frequency argv))).2 with
        | (some status, w) => (Outcome.exit status, w)
        | (none, w) =>
          (Outcome.polling, loop_status dev env w
            (setup_frontend dev { events := startup_events env, opens := 0, ioctls := 0 }
              (dev_frontend env) (toI32 (fe_frequency argv))).1 fuel) := by
  have h3 : ¬ argv.length < 3 := by omega
  simp only [main, h3, if_false, snprintf_frontend_pos, snprintf_demux_pos]
  rfl

theorem setup_frontend_ok (dev : Device) (w : World) (frontend : CStr) (freq : Int)
    (ho : 0 ≤ dev.open_ret w.opens) (hi : 0 ≤ dev.ioctl_ret w.ioctls) :
    setup_frontend dev w frontend freq =
      (dev.open_ret w.opens,
       { events := w.events ++ tune_events dev frontend w.opens freq,
         opens := w.opens + 1, ioctls := w.ioctls + 1 }) := by
  simp [setup_frontend, sys_open, sys_ioctl, World.emit, tune_events,
    not_lt.mpr ho, not_lt.mpr hi]

theorem setup_frontend_open_fail (dev : Device) (w : World) (frontend : CStr) (freq : Int)
    (ho : dev.open_ret w.opens < 0) :
    setup_frontend dev w frontend freq =
      (-1,
       { events := w.events ++ [Event.sys_open frontend OFlag.O_RDWR,
           Event.stderr (STR_ERR ++ "failed opening '".toList ++ frontend ++ "'\n".toList)],
         opens := w.opens + 1, ioctls := w.ioctls }) := by
  simp [setup_frontend, sys_open, World.emit, ho]

theorem setup_frontend_ioctl_fail (dev : Device) (w : World) (frontend : CStr) (freq : Int)
    (ho : 0 ≤ dev.open_ret w.opens) (hi : dev.ioctl_ret w.ioctls < 0) :
    setup_frontend dev w frontend freq =
      (-1,
       { events := w.events ++ [Event.sys_open frontend OFlag.O_RDWR,
           Event.stdout ("tuning: ".toList ++ fmt_d freq ++ " Hz\n".toList),
           Event.sys_ioctl (dev.open_ret w.opens)
             (Request.FE_SET_FRONTEND
               { frequency := toU32 freq, modulation := fe_modulation.VSB_8 }),
           Event.stderr (STR_ERR ++ "ioctl(FE_SET_FRONTEND) failed\n".toList)],
         opens := w.opens + 1, ioctls := w.ioctls + 1 }) := by
  simp [setup_frontend, sys_open, sys_ioctl, World.emit, not_lt.mpr ho, hi]

theorem add_pes_filter_open_fail (dev : Device) (w : World) (demux : CStr) (pid : Int)
    (ho : dev.open_ret w.opens < 0) :
    add_pes_filter dev w demux pid =
      (-1,
       { events := w.events ++ [Event.stdout (announcement pid),
           Event.sys_open demux OFlag.O_RDONLY,
           Event.stderr (STR_ERR ++ "failed opening '".toList ++ demux ++ "'\n".toList)],
         opens := w.opens + 1, ioctls := w.ioctls }) := by
  simp [add_pes_filter, sys_open, World.emit, announcement, ho]

theorem add_pes_filter_ioctl_fail (dev : Device) (w : World) (demux : CStr) (pid : Int)
    (ho : 0 ≤ dev.open_ret w.opens) (hi : dev.ioctl_ret w.ioctls < 0) :
    add_pes_filter dev w demux pid =
      (-1,
       { events := w.events ++ [Event.stdout (announcement pid),
           Event.sys_open demux OFlag.O_RDONLY,
           Event.sys_ioctl (dev.open_ret w.opens)
             (Request.DMX_SET_PES_FILTER (pes_filter (toU16 pid))),
           Event.stderr (STR_ERR ++ "ioctl(DMX_SET_PES_FILTER) for pid ".toList ++ fmt_d pid
             ++ " (0x".toList ++ fmt_0x 4 (toU32 pid) ++ ") failed\n".toList)],
         opens := w.opens + 1, ioctls := w.ioctls + 1 }) := by
  simp [add_pes_filter, sys_open, sys_ioctl, World.emit, announcement, pes_filter,
    not_lt.mpr ho, hi]

theorem device_calls_append (a b : List Event) :
    device_calls (a ++ b) = device_calls a ++ device_calls b := by
  simp [device_calls]

theorem installed_pids_append (a b : List Event) :
    installed_pids (a ++ b) = installed_pids a ++ installed_pids b := by
  simp [installed_pids]

theorem stderr_texts_append (a b : List Event) :
    stderr_texts (a ++ b) = stderr_texts a ++ stderr_texts b := by
  simp [stderr_texts]

theorem device_calls_startup (env : CStr → Option CStr) :
    device_calls (startup_events env) = [] := by
  simp [device_calls, startup_events]

theorem device_calls_attach_all (dev : Device) (demux : CStr) (args : List CStr) :
    ∀ n, (∀ a ∈ args, 0 < atoi a ∧ atoi a < 0x1fff) →
      device_calls (attach_all_events dev demux n args) =
        attach_calls dev demux n (args.map atoi) := by
  induction args with
  | nil => intro n _; simp [attach_all_events, attach_calls, device_calls]
  | cons a rest ih =>
    intro n h
    have ha := h a (by simp)
    have hu : toU16 (atoi a) = (atoi a).toNat := toU16_of_range (by omega) (by omega)
    rw [attach_all_events, device_calls_append, ih (n + 1) (fun b hb => h b (by simp [hb]))]
    simp [attach_events, device_calls, attach_calls, hu]

theorem installed_pids_attach_all (dev : Device) (demux : CStr) (args : List CStr) :
    ∀ n, installed_pids (attach_all_events dev demux n args) =
      args.map fun a => toU16 (atoi a) := by
  induction args with
  | nil => intro n; simp [attach_all_events, installed_pids]
  | cons a rest ih =>
    intro n
    rw [attach_all_events, installed_pids_append, ih (n + 1)]
    simp [attach_events, installed_pids, pes_filter]

theorem loop_status_body_spec (dev : Device) (w : World) (fd : Int) (usecs : Nat) :
    loop_status_body dev w fd usecs =
      { events := w.events ++ status_reads fd ++
          [Event.stdout (status_line (dev.ioctl_out w.ioctls % 4294967296)
            (dev.ioctl_out (w.ioctls + 1) % 65536) (dev.ioctl_out (w.ioctls + 2) % 65536)
            (dev.ioctl_out (w.ioctls + 3) % 4294967296)
            (dev.ioctl_out (w.ioctls + 4) % 4294967296)),
           Event.usleep usecs],
        opens := w.opens, ioctls := w.ioctls + 5 } := by
  simp [loop_status_body, sys_ioctl_out, sys_ioctl, World.emit, status_reads, Nat.add_assoc]

theorem device_calls_loop_do (dev : Device) (fd : Int) (usecs : Nat) (fuel : Nat) :
    ∀ w, device_calls (loop_status_do dev fd usecs fuel w).events =
      device_calls w.events ++ status_calls fd fuel := by
  induction fuel with
  | zero => intro w; simp [loop_status_do, status_calls]
  | succ n ih =>
    intro w
    rw [loop_status_do, ih, loop_status_body_spec]
    simp [device_calls_append, status_calls, device_calls, status_reads]

theorem device_calls_loop_status (dev : Device) (env : CStr → Option CStr) (w : World)
    (fd : Int) (fuel : Nat) :
    device_calls (loop_status dev env w fd fuel).events =
      device_calls w.events ++ status_calls fd fuel := by
  unfold loop_status
  rw [device_calls_loop_do]
  simp [World.emit, device_calls_append, device_calls]

theorem atoi_range (s : CStr) : -2147483648 ≤ atoi s ∧ atoi s < 2147483648 := by
  unfold atoi toI32
  omega

theorem okDev_ok (n : Nat) : 0 ≤ okDev.open_ret n ∧ 0 ≤ okDev.ioctl_ret n := by
  simp only [okDev]
  omega

theorem installed_pids_loop_do (dev : Device) (fd : Int) (usecs : Nat) (fuel : Nat) :
    ∀ w, installed_pids (loop_status_do dev fd usecs fuel w).events =
      installed_pids w.events := by
  induction fuel with
  | zero => intro w; simp [loop_status_do]
  | succ n ih =>
    intro w
    rw [loop_status_do, ih, loop_status_body_spec]
    simp [installed_pids_append, installed_pids, status_reads]

theorem installed_pids_loop_status (dev : Device) (env : CStr → Option CStr) (w : World)
    (fd : Int) (fuel : Nat) :
    installed_pids (loop_status dev env w fd fuel).events = installed_pids w.events := by
  unfold loop_status
  rw [installed_pids_loop_do]
  simp [World.emit, installed_pids_append, installed_pids]

theorem main_after_attached (argv : List CStr) (env : CStr → Option CStr) (dev : Device)
    (fuel k : Nat) (hargc : 3 ≤ argv.length) (hk : k + 2 ≤ argv.length)
    (hfe : 0 ≤ dev.open_ret 0) (htune : 0 ≤ dev.ioctl_ret 0)
    (hpre : ∀ j, j < k →
      (0 < atoi (argv.getD (j + 2) []) ∧ atoi (argv.getD (j + 2) []) < 0x1fff) ∧
      0 ≤ dev.open_ret (j + 1) ∧ 0 ≤ dev.ioctl_ret (j + 1)) :
    main argv env dev fuel =
      match main_for dev (dev_demux env) (argv.drop (k + 2)) (world_after argv env dev k) with
      | (some status, w) => (Outcome.exit status, w)
      | (none, w) => (Outcome.polling, loop_status dev env w (dev.open_ret 0) fuel) := by
  have hm := main_of_argc argv env dev fuel hargc
  have hs := setup_frontend_ok dev { events := startup_events env, opens := 0, ioctls := 0 }
    (dev_frontend env) (toI32 (fe_frequency argv)) hfe htune
  have hlen : ((argv.drop 2).take k).length = k := by
    simp only [List.length_take, List.length_drop]
    omega
  have hf := main_for_ok dev (dev_demux env) ((argv.drop 2).take k) ((argv.drop 2).drop k)
    { events := startup_events env ++ tune_events dev (dev_frontend env) 0
        (toI32 (fe_frequency argv)),
      opens := 0 + 1, ioctls := 0 + 1 }
    (by
      intro j hj
      rw [hlen] at hj
      have hg : ((argv.drop 2).take k).getD j [] = argv.getD (j + 2) [] := by
        simp only [List.getD_eq_getElem?_getD, List.getElem?_take, List.getElem?_drop, hj,
          if_true, Nat.add_comm 2 j]
      rw [hg]
      have := hpre j hj
      simpa [Nat.add_comm 1 j] using this)
  rw [List.take_append_drop, hlen, List.drop_drop] at hf
  simp only [hs, not_lt.mpr hfe, if_false] at hm
  rw [hf] at hm
  rw [hm]
  simp only [world_after, Nat.zero_add, Nat.add_comm 2 k, Nat.add_comm 1 k]

/-- C7: with at least two arguments, every identifier in range and every
device call succeeding, `main` reaches the status loop and its device calls
are exactly: open of the frontend, one `FE_SET_FRONTEND` carrying the
frequency, then per identifier, in the order given, one open of the demux and
one `DMX_SET_PES_FILTER` whose `pid` is that identifier, and only then the
status queries; the installed pids are the identifiers given. -/
theorem main_attaches_in_order (argv : List CStr) (env : CStr → Option CStr) (dev : Device)
    (fuel : Nat) (hargc : 3 ≤ argv.length)
    (hrange : ∀ a ∈ argv.drop 2, 0 < atoi a ∧ atoi a < 0x1fff)
    (hdev : ∀ n, 0 ≤ dev.open_ret n ∧ 0 ≤ dev.ioctl_ret n) :
    (main argv env dev fuel).1 = Outcome.polling ∧
    device_calls (main argv env dev fuel).2.events =
      Event.sys_open (dev_frontend env) OFlag.O_RDWR
        :: Event.sys_ioctl (dev.open_ret 0)
            (Request.FE_SET_FRONTEND
              { frequency := fe_frequency argv, modulation := fe_modulation.VSB_8 })
        :: (attach_calls dev (dev_demux env) 1 ((argv.drop 2).map atoi)
            ++ status_calls (dev.open_ret 0) fuel) ∧
    (installed_pids (main argv env dev fuel).2.events).map Int.ofNat
      = (argv.drop 2).map atoi ∧
    (0 ≤ atoi (argv.getD 1 []) → (fe_frequency argv : Int) = atoi (argv.getD 1 [])) := by
  have hall : (argv.drop 2).take (argv.length - 2) = argv.drop 2 :=
    List.take_of_length_le (by simp)
  have hm := main_after_attached argv env dev fuel (argv.length - 2) hargc (by omega)
    (hdev 0).1 (hdev 0).2 (fun j hj => ⟨by
      have hj2 : j + 2 < argv.length := by omega
      have hmem : argv.getD (j + 2) [] ∈ argv.drop 2 := by
        rw [List.getD_eq_getElem argv [] hj2]
        exact List.mem_drop_iff_getElem.mpr ⟨j, by omega, by simp [Nat.add_comm]⟩
      exact hrange _ hmem, (hdev _).1, (hdev _).2⟩)
  rw [List.drop_of_length_le (by omega)] at hm
  simp only [main_for] at hm
  simp only [world_after] at hm
  rw [hall] at hm
  have hfreq : toU32 (toI32 (fe_frequency argv)) = fe_frequency argv :=
    toU32_toI32_toU32 _
  refine ⟨by rw [hm], ?_, ?_, ?_⟩
  · rw [hm]
    simp only [device_calls_loop_status, device_calls_append, device_calls_startup,
      device_calls_attach_all dev (dev_demux env) (argv.drop 2) 1 hrange]
    simp only [device_calls, tune_events, List.filter, List.nil_append, List.cons_append,
      hfreq]
  · rw [hm]
    simp only [installed_pids_loop_status, installed_pids_append,
      installed_pids_attach_all, List.map_map]
    have h0 : installed_pids (startup_events env) = [] := rfl
    have h1 : installed_pids (tune_events dev (dev_frontend env) 0
        (toI32 (fe_frequency argv))) = [] := rfl
    rw [h0, h1, List.nil_append, List.nil_append, List.map_map]
    apply List.map_congr_left
    intro a ha
    have hr := hrange a ha
    simp only [Function.comp, toU16, Int.ofNat_eq_coe]
    omega
  · intro h0
    have := atoi_range (argv.getD 1 [])
    unfold fe_frequency toU32
    omega

/-- C7 at `617028615 49 52` on a device where every call succeeds, observed
for one pass of the status loop. -/
theorem main_attaches_in_order_witness :
    (main ["dvb-pids-tune".toList, "617028615".toList, "49".toList, "52".toList]
      noEnv okDev 1).1 = Outcome.polling ∧
    device_calls (main ["dvb-pids-tune".toList, "617028615".toList, "49".toList, "52".toList]
      noEnv okDev 1).2.events =
      [Event.sys_open "/dev/dvb/adapter0/frontend0".toList OFlag.O_RDWR,
       Event.sys_ioctl 3 (Request.FE_SET_FRONTEND
         { frequency := 617028615, modulation := fe_modulation.VSB_8 }),
       Event.sys_open "/dev/dvb/adapter0/demux0".toList OFlag.O_RDONLY,
       Event.sys_ioctl 4 (Request.DMX_SET_PES_FILTER (pes_filter 49)),
       Event.sys_open "/dev/dvb/adapter0/demux0".toList OFlag.O_RDONLY,
       Event.sys_ioctl 5 (Request.DMX_SET_PES_FILTER (pes_filter 52)),
       Event.sys_ioctl 3 Request.FE_READ_STATUS,
       Event.sys_ioctl 3 Request.FE_READ_SIGNAL_STRENGTH,
       Event.sys_ioctl 3 Request.FE_READ_SNR,
       Event.sys_ioctl 3 Request.FE_READ_BER,
       Event.sys_ioctl 3 Request.FE_READ_UNCORRECTED_BLOCKS] ∧
    installed_pids (main ["dvb-pids-tune".toList, "617028615".toList, "49".toList,
      "52".toList] noEnv okDev 1).2.events = [49, 52] := by
  have h := main_attaches_in_order
    ["dvb-pids-tune".toList, "617028615".toList, "49".toList, "52".toList] noEnv okDev 1
    (by decide) (by decide) okDev_ok
  refine ⟨h.1, ?_, ?_⟩
  · rw [h.2.1]; decide
  · have h3 := h.2.2.1
    generalize installed_pids (main ["dvb-pids-tune".toList, "617028615".toList,
      "49".toList, "52".toList] noEnv okDev 1).2.events = l at h3
    have h4 : List.map atoi (List.drop 2 ["dvb-pids-tune".toList, "617028615".toList,
      "49".toList, "52".toList]) = List.map Int.ofNat [49, 52] := by decide
    rw [h4] at h3
    exact List.map_injective_iff.mpr (fun a b hab => Int.ofNat.inj hab) h3

theorem toDigitsCore_step (b fuel n : Nat) (acc : List Char) (h : 0 < fuel) :
    Nat.toDigitsCore b fuel n acc =
      if n / b = 0 then Nat.digitChar (n % b) :: acc
      else Nat.toDigitsCore b (fuel - 1) (n / b) (Nat.digitChar (n % b) :: acc) := by
  cases fuel with
  | zero => omega
  | succ f => simp [Nat.toDigitsCore]

theorem fmt_0x_4 (n : Nat) (h : n < 65536) : fmt_0x 4 n = hex4 n := by
  have e2 : n / 16 / 16 = n / 256 := by omega
  have e3 : n / 16 / 16 / 16 = n / 4096 := by omega
  unfold fmt_0x hex4 Nat.toDigits
  rw [toDigitsCore_step 16 (n + 1) n [] (by omega)]
  by_cases h1 : n / 16 = 0
  · have a1 : n / 4096 % 16 = 0 := by omega
    have a2 : n / 256 % 16 = 0 := by omega
    have a3 : n / 16 % 16 = 0 := by omega
    simp [h1, a1, a2, a3]
    rfl
  · rw [if_neg h1, toDigitsCore_step 16 _ _ _ (by omega)]
    by_cases h2 : n / 16 / 16 = 0
    · have a1 : n / 4096 % 16 = 0 := by omega
      have a2 : n / 256 % 16 = 0 := by omega
      simp [h2, a1, a2]
      rfl
    · rw [if_neg h2, toDigitsCore_step 16 _ _ _ (by omega)]
      by_cases h3 : n / 16 / 16 / 16 = 0
      · have a1 : n / 4096 % 16 = 0 := by omega
        simp [h3, a1]
        exact ⟨rfl, by rw [e2]⟩
      · rw [if_neg h3, toDigitsCore_step 16 _ _ _ (by omega)]
        have h4 : n / 16 / 16 / 16 / 16 = 0 := by omega
        simp [h4]
        exact ⟨by rw [e3], by rw [e2]⟩

theorem fmt_d_nonneg (i : Int) (h : 0 ≤ i) : fmt_d i = (Nat.repr i.toNat).toList := by
  unfold fmt_d
  rw [if_neg (not_lt.mpr h)]
  rfl

/-- C9: for an identifier `0 < pid < 0x1FFF`, the first thing
`add_pes_filter` does, before any device call, is to print the line
`adding: pid <decimal> (0x<hex>)`, the hexadecimal form being the four
lowercase digits of `pid`. -/
theorem add_pes_filter_announces (dev : Device) (w : World) (demux : CStr) (pid : Int)
    (hlo : 0 < pid) (hhi : pid < 0x1fff) :
    ∃ rest,
      (add_pes_filter dev w demux pid).2.events =
        w.events ++
          Event.stdout ("adding: pid ".toList ++ (Nat.repr pid.toNat).toList ++ " (0x".toList
            ++ hex4 pid.toNat ++ ")".toList ++ "\n".toList) :: rest ∧
      (hex4 pid.toNat).length = 4 := by
  have hu : toU32 pid = pid.toNat := by
    unfold toU32
    omega
  have hx : fmt_0x 4 (toU32 pid) = hex4 pid.toNat := by
    rw [hu]
    exact fmt_0x_4 _ (by omega)
  have ha : announcement pid = "adding: pid ".toList ++ (Nat.repr pid.toNat).toList
      ++ " (0x".toList ++ hex4 pid.toNat ++ ")".toList ++ "\n".toList := by
    unfold announcement
    rw [hx, fmt_d_nonneg pid (by omega)]
    simp only [List.append_assoc]
    rfl
  rw [← ha]
  by_cases ho : dev.open_ret w.opens < 0
  · rw [add_pes_filter_open_fail dev w demux pid ho]
    exact ⟨_, rfl, rfl⟩
  · by_cases hi : dev.ioctl_ret w.ioctls < 0
    · rw [add_pes_filter_ioctl_fail dev w demux pid (not_lt.mp ho) hi]
      exact ⟨_, rfl, rfl⟩
    · rw [add_pes_filter_ok dev w demux pid (not_lt.mp ho) (not_lt.mp hi)]
      exact ⟨_, rfl, rfl⟩

/-- C9 at the identifiers 49 (`0x0031`) and 52 (`0x0034`). -/
theorem add_pes_filter_announces_witness :
    (∃ rest,
      (add_pes_filter okDev { events := [], opens := 1, ioctls := 1 }
          "/dev/dvb/adapter0/demux0".toList 49).2.events =
        [] ++ Event.stdout "adding: pid 49 (0x0031)\n".toList :: rest ∧
      (hex4 49).length = 4) ∧
    (∃ rest,
      (add_pes_filter okDev { events := [], opens := 2, ioctls := 2 }
          "/dev/dvb/adapter0/demux0".toList 52).2.events =
        [] ++ Event.stdout "adding: pid 52 (0x0034)\n".toList :: rest ∧
      (hex4 52).length = 4) :=
  ⟨add_pes_filter_announces okDev { events := [], opens := 1, ioctls := 1 }
      "/dev/dvb/adapter0/demux0".toList 49 (by decide) (by decide),
   add_pes_filter_announces okDev { events := [], opens := 2, ioctls := 2 }
      "/dev/dvb/adapter0/demux0".toList 52 (by decide) (by decide)⟩

theorem main_of_few_args (argv : List CStr) (env : CStr → Option CStr) (dev : Device)
    (fuel : Nat) (hargc : argv.length < 3) :
    main argv env dev fuel =
      (Outcome.exit 1,
       { events := [Event.stdout ("usage: ".toList ++ argv.headD "(null)".toList
           ++ " <frequency> <pid> [pid..]\n".toList)],
         opens := 0, ioctls := 0 }) := by
  unfold main
  rw [if_pos hargc]
  rfl

/-- C6: with fewer than three arguments `main` prints the usage line on
standard output and returns 1; nothing else happens: no `getenv`, no `open`,
no `ioctl`, whatever the environment and the device. -/
theorem main_usage (argv : List CStr) (env : CStr → Option CStr) (dev : Device) (fuel : Nat)
    (hargc : argv.length < 3) :
    main argv env dev fuel =
      (Outcome.exit 1,
       { events := [Event.stdout ("usage: ".toList ++ argv.headD "(null)".toList
           ++ " <frequency> <pid> [pid..]\n".toList)],
         opens := 0, ioctls := 0 }) ∧
    device_calls (main argv env dev fuel).2.events = [] := by
  rw [main_of_few_args argv env dev fuel hargc]
  exact ⟨rfl, rfl⟩

/-- C6 at the invocation with a frequency but no identifier. -/
theorem main_usage_witness :
    main ["dvb-pids-tune".toList, "617028615".toList] noEnv okDev 1 =
      (Outcome.exit 1,
       { events := [Event.stdout
           "usage: dvb-pids-tune <frequency> <pid> [pid..]\n".toList],
         opens := 0, ioctls := 0 }) ∧
    device_calls (main ["dvb-pids-tune".toList, "617028615".toList] noEnv okDev 1).2.events
      = [] :=
  main_usage ["dvb-pids-tune".toList, "617028615".toList] noEnv okDev 1 (by decide)

theorem main_for_extends (dev : Device) (demux : CStr) (args : List CStr) :
    ∀ w, ∃ rest, (main_for dev demux args w).2.events = w.events ++ rest := by
  induction args with
  | nil => intro w; exact ⟨[], by simp [main_for]⟩
  | cons a rest ih =>
    intro w
    rw [main_for]
    by_cases hr : atoi a ≤ 0 ∨ atoi a ≥ 0x1fff
    · rw [if_pos hr]
      exact ⟨_, rfl⟩
    · rw [if_neg hr]
      by_cases ho : dev.open_ret w.opens < 0
      · simp only [add_pes_filter_open_fail dev w demux (atoi a) ho]
        exact ⟨_, by simp [World.emit]; rfl⟩
      · by_cases hi : dev.ioctl_ret w.ioctls < 0
        · simp only [add_pes_filter_ioctl_fail dev w demux (atoi a) (not_lt.mp ho) hi]
          exact ⟨_, by simp [World.emit]; rfl⟩
        · simp only [add_pes_filter_ok dev w demux (atoi a) (not_lt.mp ho) (not_lt.mp hi)]
          rw [if_neg ho]
          obtain ⟨r, hr2⟩ := ih ⟨w.events ++ attach_events dev demux w.opens (atoi a),
            w.opens + 1, w.ioctls + 1⟩
          exact ⟨_, by rw [hr2, List.append_assoc]⟩

theorem loop_status_do_extends (dev : Device) (fd : Int) (usecs : Nat) (fuel : Nat) :
    ∀ w, ∃ rest, (loop_status_do dev fd usecs fuel w).events = w.events ++ rest := by
  induction fuel with
  | zero => intro w; exact ⟨[], by simp [loop_status_do]⟩
  | succ n ih =>
    intro w
    rw [loop_status_do, loop_status_body_spec]
    obtain ⟨r, hr⟩ := ih ⟨w.events ++ status_reads fd ++
      [Event.stdout (status_line (dev.ioctl_out w.ioctls % 4294967296)
        (dev.ioctl_out (w.ioctls + 1) % 65536) (dev.ioctl_out (w.ioctls + 2) % 65536)
        (dev.ioctl_out (w.ioctls + 3) % 4294967296)
        (dev.ioctl_out (w.ioctls + 4) % 4294967296)),
       Event.usleep usecs], w.opens, w.ioctls + 5⟩
    exact ⟨_, by rw [hr, List.append_assoc, List.append_assoc]⟩

theorem loop_status_extends (dev : Device) (env : CStr → Option CStr) (w : World)
    (fd : Int) (fuel : Nat) :
    ∃ rest, (loop_status dev env w fd fuel).events = w.events ++ rest := by
  unfold loop_status
  obtain ⟨r, hr⟩ := loop_status_do_extends dev fd
    (status_usecs (env "DVB_STATUS_USECS".toList)) fuel
    (w.emit (Event.getenv "DVB_STATUS_USECS".toList))
  exact ⟨_, by rw [hr]; simp only [World.emit, List.append_assoc]; rfl⟩

theorem setup_frontend_extends (dev : Device) (w : World) (frontend : CStr) (freq : Int) :
    ∃ rest, (setup_frontend dev w frontend freq).2.events =
      w.events ++ Event.sys_open frontend OFlag.O_RDWR :: rest := by
  by_cases ho : dev.open_ret w.opens < 0
  · rw [setup_frontend_open_fail dev w frontend freq ho]
    exact ⟨_, rfl⟩
  · by_cases hi : dev.ioctl_ret w.ioctls < 0
    · rw [setup_frontend_ioctl_fail dev w frontend freq (not_lt.mp ho) hi]
      exact ⟨_, rfl⟩
    · rw [setup_frontend_ok dev w frontend freq (not_lt.mp ho) (not_lt.mp hi)]
      exact ⟨_, rfl⟩

theorem main_events_start (argv : List CStr) (env : CStr → Option CStr) (dev : Device)
    (fuel : Nat) (hargc : 3 ≤ argv.length) :
    ∃ rest, (main argv env dev fuel).2.events =
      startup_events env ++ Event.sys_open (dev_frontend env) OFlag.O_RDWR :: rest := by
  rw [main_of_argc argv env dev fuel hargc]
  obtain ⟨r, hr⟩ := setup_frontend_extends dev
    { events := startup_events env, opens := 0, ioctls := 0 }
    (dev_frontend env) (toI32 (fe_frequency argv))
  generalize setup_frontend dev { events := startup_events env, opens := 0, ioctls := 0 }
    (dev_frontend env) (toI32 (fe_frequency argv)) = sf at hr
  by_cases hf : sf.1 < 0
  · rw [if_pos hf]
    exact ⟨_, by simp only [World.emit, hr, List.append_assoc, List.cons_append]; rfl⟩
  · rw [if_neg hf]
    obtain ⟨r2, hr2⟩ := main_for_extends dev (dev_demux env) (argv.drop 2) sf.2
    generalize main_for dev (dev_demux env) (argv.drop 2) sf.2 = mf at hr2
    rcases mf with ⟨_ | status, w⟩
    · obtain ⟨r3, hr3⟩ := loop_status_extends dev env w sf.1 fuel
      simp only at hr2
      exact ⟨_, by simp only [hr3, hr2, hr, List.append_assoc, List.cons_append]; rfl⟩
    · simp only at hr2
      exact ⟨_, by simp only [hr2, hr, List.append_assoc, List.cons_append]; rfl⟩

theorem atoi_not_number (s : CStr)
    (h : ∀ c, s.head? = some c →
      c.isDigit = false ∧ isspace c = false ∧ c ≠ '-' ∧ c ≠ '+') : atoi s = 0 := by
  cases s with
  | nil => rfl
  | cons c cs =>
    obtain ⟨hd, hs, hm, hp⟩ := h c rfl
    unfold atoi strtol
    rw [List.dropWhile_cons, hs]
    simp only [Bool.false_eq_true, if_false]
    split
    · rename_i heq
      injection heq with h1 h2
      exact absurd h1 hm
    · rename_i heq
      injection heq with h1 h2
      exact absurd h1 hp
    · have hr : digitRun (c :: cs) 0 = 0 := by
        rw [digitRun, hd]
        rfl
      rw [hr]
      decide

theorem fmt_frontend_template (a f : Nat) :
    fmt_frontend a f = path_template a "/frontend".toList f := by
  unfold fmt_frontend path_template
  rw [fmt_d_nonneg a (by omega), fmt_d_nonneg f (by omega)]
  rfl

theorem fmt_demux_template (a d : Nat) :
    fmt_demux a d = path_template a "/demux".toList d := by
  unfold fmt_demux path_template
  rw [fmt_d_nonneg a (by omega), fmt_d_nonneg d (by omega)]
  rfl

/-- C5: when the indices taken from `DVB_ADAPTER`, `DVB_FRONTEND`,
`DVB_DEMUX` are the non-negative `a`, `f`, `d` and the formatted paths have at
most 31 characters, the paths `main` prints and works with follow the template
exactly: `/dev/dvb/adapter<a>/frontend<f>` and `/dev/dvb/adapter<a>/demux<d>`,
with the same adapter index in both.  An index is 0 when its variable is unset,
and when its value does not begin like a number (no white space, sign or
digit in front). -/
theorem main_device_paths (argv : List CStr) (env : CStr → Option CStr) (dev : Device)
    (fuel : Nat) (a f d : Nat) (hargc : 3 ≤ argv.length)
    (ha : getenv_id env "DVB_ADAPTER".toList = a)
    (hf : getenv_id env "DVB_FRONTEND".toList = f)
    (hd : getenv_id env "DVB_DEMUX".toList = d)
    (hlf : (path_template a "/frontend".toList f).length ≤ 31)
    (hld : (path_template a "/demux".toList d).length ≤ 31) :
    (∃ rest, (main argv env dev fuel).2.events =
      [Event.getenv "DVB_ADAPTER".toList, Event.getenv "DVB_FRONTEND".toList,
       Event.getenv "DVB_DEMUX".toList,
       Event.stdout ("frontend: '".toList ++ path_template a "/frontend".toList f
         ++ "'\n".toList),
       Event.stdout ("demux: '".toList ++ path_template a "/demux".toList d
         ++ "'\n".toList),
       Event.sys_open (path_template a "/frontend".toList f) OFlag.O_RDWR] ++ rest) ∧
    dev_frontend env = path_template a "/frontend".toList f ∧
    dev_demux env = path_template a "/demux".toList d ∧
    (∀ name, env name = none → getenv_id env name = 0) ∧
    (∀ name s, env name = some s →
      (∀ c, s.head? = some c →
        c.isDigit = false ∧ isspace c = false ∧ c ≠ '-' ∧ c ≠ '+') →
      getenv_id env name = 0) := by
  have h1 : dev_frontend env = path_template a "/frontend".toList f := by
    unfold dev_frontend snprintf
    rw [ha, hf, fmt_frontend_template]
    exact List.take_of_length_le hlf
  have h2 : dev_demux env = path_template a "/demux".toList d := by
    unfold dev_demux snprintf
    rw [ha, hd, fmt_demux_template]
    exact List.take_of_length_le hld
  refine ⟨?_, h1, h2, ?_, ?_⟩
  · obtain ⟨r, hr⟩ := main_events_start argv env dev fuel hargc
    refine ⟨r, ?_⟩
    rw [hr, startup_events, h1, h2]
    rfl
  · intro name hn
    unfold getenv_id
    rw [hn]
  · intro name s hn hs
    unfold getenv_id
    rw [hn]
    exact atoi_not_number s hs

/-- C5 with `DVB_ADAPTER=1` and the other variables unset: `adapter1` in
both paths. -/
theorem main_device_paths_witness :
    (∃ rest, (main ["dvb-pids-tune".toList, "617028615".toList, "49".toList]
        (env1 "DVB_ADAPTER" "1") okDev 0).2.events =
      [Event.getenv "DVB_ADAPTER".toList, Event.getenv "DVB_FRONTEND".toList,
       Event.getenv "DVB_DEMUX".toList,
       Event.stdout ("frontend: '".toList ++ path_template 1 "/frontend".toList 0
         ++ "'\n".toList),
       Event.stdout ("demux: '".toList ++ path_template 1 "/demux".toList 0
         ++ "'\n".toList),
       Event.sys_open (path_template 1 "/frontend".toList 0) OFlag.O_RDWR] ++ rest) ∧
    dev_frontend (env1 "DVB_ADAPTER" "1") = path_template 1 "/frontend".toList 0 ∧
    dev_demux (env1 "DVB_ADAPTER" "1") = path_template 1 "/demux".toList 0 ∧
    (∀ name, env1 "DVB_ADAPTER" "1" name = none →
      getenv_id (env1 "DVB_ADAPTER" "1") name = 0) ∧
    (∀ name s, env1 "DVB_ADAPTER" "1" name = some s →
      (∀ c, s.head? = some c →
        c.isDigit = false ∧ isspace c = false ∧ c ≠ '-' ∧ c ≠ '+') →
      getenv_id (env1 "DVB_ADAPTER" "1") name = 0) ∧
    path_template 1 "/frontend".toList 0 = "/dev/dvb/adapter1/frontend0".toList ∧
    path_template 1 "/demux".toList 0 = "/dev/dvb/adapter1/demux0".toList ∧
    dev_frontend noEnv = "/dev/dvb/adapter0/frontend0".toList ∧
    dev_demux noEnv = "/dev/dvb/adapter0/demux0".toList := by
  have h := main_device_paths ["dvb-pids-tune".toList, "617028615".toList, "49".toList]
    (env1 "DVB_ADAPTER" "1") okDev 0 1 0 0 (by decide) (by decide) (by decide) (by decide)
    (by decide) (by decide)
  exact ⟨h.1, h.2.1, h.2.2.1, h.2.2.2.1, h.2.2.2.2, by decide, by decide, by decide,
    by decide⟩

theorem fe_frequency_roundtrip (argv : List CStr) :
    toU32 (toI32 (fe_frequency argv)) = fe_frequency argv := by
  unfold fe_frequency
  exact toU32_toI32_toU32 _

theorem main_for_bad (dev : Device) (demux : CStr) (a : CStr) (rest : List CStr) (w : World)
    (hr : atoi a ≤ 0 ∨ atoi a ≥ 0x1fff) :
    main_for dev demux (a :: rest) w =
      (some 2, { events := w.events ++ [Event.stderr (err_range (atoi a))],
                 opens := w.opens, ioctls := w.ioctls }) := by
  rw [main_for, if_pos hr]
  rfl

theorem main_for_open_fail (dev : Device) (demux : CStr) (a : CStr) (rest : List CStr)
    (w : World) (hr : 0 < atoi a ∧ atoi a < 0x1fff) (ho : dev.open_ret w.opens < 0) :
    main_for dev demux (a :: rest) w =
      (some 2, { events := w.events ++ [Event.stdout (announcement (atoi a)),
                   Event.sys_open demux OFlag.O_RDONLY, Event.stderr (err_open demux),
                   Event.stderr (err_add (atoi a) a)],
                 opens := w.opens + 1, ioctls := w.ioctls }) := by
  have hn : ¬ (atoi a ≤ 0 ∨ atoi a ≥ 0x1fff) := by omega
  rw [main_for, if_neg hn]
  simp only [add_pes_filter_open_fail dev w demux (atoi a) ho]
  rw [if_pos (by decide)]
  simp only [World.emit, err_open, err_add, err_filter, err_tune, err_frontend,
    List.append_assoc, List.cons_append, List.nil_append]

theorem main_for_ioctl_fail (dev : Device) (demux : CStr) (a : CStr) (rest : List CStr)
    (w : World) (hr : 0 < atoi a ∧ atoi a < 0x1fff) (ho : 0 ≤ dev.open_ret w.opens)
    (hi : dev.ioctl_ret w.ioctls < 0) :
    main_for dev demux (a :: rest) w =
      (some 2, { events := w.events ++ [Event.stdout (announcement (atoi a)),
                   Event.sys_open demux OFlag.O_RDONLY,
                   Event.sys_ioctl (dev.open_ret w.opens)
                     (Request.DMX_SET_PES_FILTER (pes_filter (toU16 (atoi a)))),
                   Event.stderr (err_filter (atoi a)),
                   Event.stderr (err_add (atoi a) a)],
                 opens := w.opens + 1, ioctls := w.ioctls + 1 }) := by
  have hn : ¬ (atoi a ≤ 0 ∨ atoi a ≥ 0x1fff) := by omega
  rw [main_for, if_neg hn]
  simp only [add_pes_filter_ioctl_fail dev w demux (atoi a) ho hi]
  rw [if_pos (by decide)]
  simp only [World.emit, err_open, err_add, err_filter, err_tune, err_frontend,
    List.append_assoc, List.cons_append, List.nil_append]

theorem drop_eq_getD_cons (argv : List CStr) (k : Nat) (hk : k + 2 < argv.length) :
    argv.drop (k + 2) = argv.getD (k + 2) [] :: argv.drop (k + 3) := by
  rw [List.getD_eq_getElem argv [] hk]
  exact List.drop_eq_getElem_cons hk

theorem main_bad_at (argv : List CStr) (env : CStr → Option CStr) (dev : Device)
    (fuel k : Nat) (hargc : 3 ≤ argv.length) (hk : k + 2 < argv.length)
    (hfe : 0 ≤ dev.open_ret 0) (htune : 0 ≤ dev.ioctl_ret 0)
    (hpre : ∀ j, j < k →
      (0 < atoi (argv.getD (j + 2) []) ∧ atoi (argv.getD (j + 2) []) < 0x1fff) ∧
      0 ≤ dev.open_ret (j + 1) ∧ 0 ≤ dev.ioctl_ret (j + 1))
    (hbad : pid_at argv k ≤ 0 ∨ pid_at argv k ≥ 0x1fff) :
    main argv env dev fuel =
      (Outcome.exit 2,
       { events := (world_after argv env dev k).events
           ++ [Event.stderr (err_range (pid_at argv k))],
         opens := k + 1, ioctls := k + 1 }) := by
  rw [main_after_attached argv env dev fuel k hargc (by omega) hfe htune hpre,
    drop_eq_getD_cons argv k hk, main_for_bad dev (dev_demux env) _ _ _ hbad]
  rfl

theorem main_open_fail_at (argv : List CStr) (env : CStr → Option CStr) (dev : Device)
    (fuel k : Nat) (hargc : 3 ≤ argv.length) (hk : k + 2 < argv.length)
    (hfe : 0 ≤ dev.open_ret 0) (htune : 0 ≤ dev.ioctl_ret 0)
    (hpre : ∀ j, j < k →
      (0 < atoi (argv.getD (j + 2) []) ∧ atoi (argv.getD (j + 2) []) < 0x1fff) ∧
      0 ≤ dev.open_ret (j + 1) ∧ 0 ≤ dev.ioctl_ret (j + 1))
    (hr : 0 < pid_at argv k ∧ pid_at argv k < 0x1fff) (ho : dev.open_ret (k + 1) < 0) :
    main argv env dev fuel =
      (Outcome.exit 2,
       { events := (world_after argv env dev k).events
           ++ [Event.stdout (announcement (pid_at argv k)),
               Event.sys_open (dev_demux env) OFlag.O_RDONLY,
               Event.stderr (err_open (dev_demux env)),
               Event.stderr (err_add (pid_at argv k) (argv.getD (k + 2) []))],
         opens := k + 2, ioctls := k + 1 }) := by
  rw [main_after_attached argv env dev fuel k hargc (by omega) hfe htune hpre,
    drop_eq_getD_cons argv k hk, main_for_open_fail dev (dev_demux env) _ _ _ hr ho]
  rfl

theorem main_ioctl_fail_at (argv : List CStr) (env : CStr → Option CStr) (dev : Device)
    (fuel k : Nat) (hargc : 3 ≤ argv.length) (hk : k + 2 < argv.length)
    (hfe : 0 ≤ dev.open_ret 0) (htune : 0 ≤ dev.ioctl_ret 0)
    (hpre : ∀ j, j < k →
      (0 < atoi (argv.getD (j + 2) []) ∧ atoi (argv.getD (j + 2) []) < 0x1fff) ∧
      0 ≤ dev.open_ret (j + 1) ∧ 0 ≤ dev.ioctl_ret (j + 1))
    (hr : 0 < pid_at argv k ∧ pid_at argv k < 0x1fff) (ho : 0 ≤ dev.open_ret (k + 1))
    (hi : dev.ioctl_ret (k + 1) < 0) :
    main argv env dev fuel =
      (Outcome.exit 2,
       { events := (world_after argv env dev k).events
           ++ [Event.stdout (announcement (pid_at argv k)),
               Event.sys_open (dev_demux env) OFlag.O_RDONLY,
               Event.sys_ioctl (dev.open_ret (k + 1))
                 (Request.DMX_SET_PES_FILTER (pes_filter (toU16 (pid_at argv k)))),
               Event.stderr (err_filter (pid_at argv k)),
               Event.stderr (err_add (pid_at argv k) (argv.getD (k + 2) []))],
         opens := k + 2, ioctls := k + 2 }) := by
  rw [main_after_attached argv env dev fuel k hargc (by omega) hfe htune hpre,
    drop_eq_getD_cons argv k hk, main_for_ioctl_fail dev (dev_demux env) _ _ _ hr ho hi]
  rfl

theorem main_frontend_open_fail (argv : List CStr) (env : CStr → Option CStr) (dev : Device)
    (fuel : Nat) (hargc : 3 ≤ argv.length) (hfe : dev.open_ret 0 < 0) :
    main argv env dev fuel =
      (Outcome.exit 2,
       { events := startup_events env ++ [Event.sys_open (dev_frontend env) OFlag.O_RDWR,
           Event.stderr (err_open (dev_frontend env)), Event.stderr err_frontend],
         opens := 1, ioctls := 0 }) := by
  rw [main_of_argc argv env dev fuel hargc]
  simp only [setup_frontend_open_fail dev
    { events := startup_events env, opens := 0, ioctls := 0 } (dev_frontend env)
    (toI32 (fe_frequency argv)) hfe]
  rw [if_pos (by decide)]
  simp only [World.emit, err_open, err_add, err_filter, err_tune, err_frontend,
    List.append_assoc, List.cons_append, List.nil_append]

theorem main_tune_fail (argv : List CStr) (env : CStr → Option CStr) (dev : Device)
    (fuel : Nat) (hargc : 3 ≤ argv.length) (hfe : 0 ≤ dev.open_ret 0)
    (htune : dev.ioctl_ret 0 < 0) :
    main argv env dev fuel =
      (Outcome.exit 2,
       { events := startup_events env ++ [Event.sys_open (dev_frontend env) OFlag.O_RDWR,
           Event.stdout ("tuning: ".toList ++ fmt_d (toI32 (fe_frequency argv))
             ++ " Hz\n".toList),
           Event.sys_ioctl (dev.open_ret 0) (Request.FE_SET_FRONTEND
             { frequency := fe_frequency argv, modulation := fe_modulation.VSB_8 }),
           Event.stderr err_tune, Event.stderr err_frontend],
         opens := 1, ioctls := 1 }) := by
  rw [main_of_argc argv env dev fuel hargc]
  simp only [setup_frontend_ioctl_fail dev
    { events := startup_events env, opens := 0, ioctls := 0 } (dev_frontend env)
    (toI32 (fe_frequency argv)) hfe htune]
  rw [if_pos (by decide)]
  simp only [World.emit, err_open, err_add, err_filter, err_tune, err_frontend,
    List.append_assoc, List.cons_append, List.nil_append, fe_frequency_roundtrip]

theorem mem_take_drop {argv : List CStr} {k : Nat} {a : CStr}
    (h : a ∈ (argv.drop 2).take k) : ∃ j, j < k ∧ a = argv.getD (j + 2) [] := by
  obtain ⟨n, hn⟩ := List.mem_iff_getElem?.mp h
  rw [List.getElem?_take] at hn
  by_cases hnk : n < k
  · rw [if_pos hnk, List.getElem?_drop] at hn
    refine ⟨n, hnk, ?_⟩
    rw [List.getD_eq_getElem?_getD, Nat.add_comm n 2, hn]
    rfl
  · rw [if_neg hnk] at hn
    cases hn

theorem stderr_texts_attach_all (dev : Device) (demux : CStr) (args : List CStr) :
    ∀ n, stderr_texts (attach_all_events dev demux n args) = [] := by
  induction args with
  | nil => intro n; rfl
  | cons a rest ih =>
    intro n
    rw [attach_all_events, stderr_texts_append, ih (n + 1)]
    rfl

theorem stderr_texts_world_after (argv : List CStr) (env : CStr → Option CStr) (dev : Device)
    (k : Nat) : stderr_texts (world_after argv env dev k).events = [] := by
  unfold world_after
  simp only [stderr_texts_append, stderr_texts_attach_all]
  rfl

theorem device_calls_world_after (argv : List CStr) (env : CStr → Option CStr) (dev : Device)
    (k : Nat)
    (hpre : ∀ j, j < k → 0 < pid_at argv j ∧ pid_at argv j < 0x1fff) :
    device_calls (world_after argv env dev k).events =
      Event.sys_open (dev_frontend env) OFlag.O_RDWR
        :: Event.sys_ioctl (dev.open_ret 0)
            (Request.FE_SET_FRONTEND
              { frequency := fe_frequency argv, modulation := fe_modulation.VSB_8 })
        :: attach_calls dev (dev_demux env) 1 (((argv.drop 2).take k).map atoi) := by
  have hr : ∀ a ∈ (argv.drop 2).take k, 0 < atoi a ∧ atoi a < 0x1fff := by
    intro a ha
    obtain ⟨j, hj, rfl⟩ := mem_take_drop ha
    exact hpre j hj
  unfold world_after
  simp only [device_calls_append, device_calls_startup,
    device_calls_attach_all dev (dev_demux env) _ 1 hr]
  simp only [device_calls, tune_events, List.filter, List.nil_append, List.cons_append,
    fe_frequency_roundtrip]

/-- C1: with at least two arguments, the frontend opened and tuned, and
the identifiers before position `k` in range and attached, an identifier at
position `k` with `pid <= 0` or `pid >= 0x1FFF` makes `main` return 2 with the
out-of-range diagnostic; the device calls of the run are those of the frontend
and of the `k` earlier identifiers and nothing else: no demux open and no
filter for position `k` or later, and no status query. -/
theorem main_rejects_out_of_range (argv : List CStr) (env : CStr → Option CStr)
    (dev : Device) (fuel k : Nat) (hargc : 3 ≤ argv.length) (hk : k + 2 < argv.length)
    (hfe : 0 ≤ dev.open_ret 0) (htune : 0 ≤ dev.ioctl_ret 0)
    (hpre : ∀ j, j < k →
      (0 < pid_at argv j ∧ pid_at argv j < 0x1fff) ∧
      0 ≤ dev.open_ret (j + 1) ∧ 0 ≤ dev.ioctl_ret (j + 1))
    (hbad : pid_at argv k ≤ 0 ∨ pid_at argv k ≥ 0x1fff) :
    (main argv env dev fuel).1 = Outcome.exit 2 ∧
    device_calls (main argv env dev fuel).2.events =
      Event.sys_open (dev_frontend env) OFlag.O_RDWR
        :: Event.sys_ioctl (dev.open_ret 0)
            (Request.FE_SET_FRONTEND
              { frequency := fe_frequency argv, modulation := fe_modulation.VSB_8 })
        :: attach_calls dev (dev_demux env) 1 (((argv.drop 2).take k).map atoi) ∧
    stderr_texts (main argv env dev fuel).2.events = [err_range (pid_at argv k)] := by
  rw [main_bad_at argv env dev fuel k hargc hk hfe htune hpre hbad]
  refine ⟨rfl, ?_, ?_⟩
  · simp only [device_calls_append,
      device_calls_world_after argv env dev k (fun j hj => (hpre j hj).1)]
    simp only [device_calls, List.filter, List.append_nil]
  · simp only [stderr_texts_append, stderr_texts_world_after]
    rfl

/-- C1 at the arguments `617028615 8191`: rejected at the first
identifier, after the frontend was opened and tuned. -/
theorem main_rejects_out_of_range_witness :
    (main ["dvb-pids-tune".toList, "617028615".toList, "8191".toList] noEnv okDev 1).1
      = Outcome.exit 2 ∧
    device_calls
        (main ["dvb-pids-tune".toList, "617028615".toList, "8191".toList] noEnv okDev 1).2.events
      = [Event.sys_open "/dev/dvb/adapter0/frontend0".toList OFlag.O_RDWR,
         Event.sys_ioctl 3 (Request.FE_SET_FRONTEND
           { frequency := 617028615, modulation := fe_modulation.VSB_8 })] ∧
    stderr_texts
        (main ["dvb-pids-tune".toList, "617028615".toList, "8191".toList] noEnv okDev 1).2.events
      = ["error: pid out of range: 8191\n".toList] := by
  have h := main_rejects_out_of_range
    ["dvb-pids-tune".toList, "617028615".toList, "8191".toList] noEnv okDev 1 0
    (by decide) (by decide) (by decide) (by decide)
    (fun j hj => absurd hj (Nat.not_lt_zero j)) (by decide)
  refine ⟨h.1, ?_, ?_⟩
  · rw [h.2.1]; decide
  · rw [h.2.2]; decide

theorem first_failure (dev : Device) (argv : List CStr) (n : Nat) :
    (∀ j, j < n → attaches dev argv j) ∨
    ∃ k, k < n ∧ (∀ j, j < k → attaches dev argv j) ∧ ¬ attaches dev argv k := by
  induction n with
  | zero => exact Or.inl (fun j hj => absurd hj (Nat.not_lt_zero j))
  | succ n ih =>
    rcases ih with hall | ⟨k, hk, hpre, hbad⟩
    · by_cases hn : attaches dev argv n
      · refine Or.inl (fun j hj => ?_)
        rcases Nat.lt_succ_iff_lt_or_eq.mp hj with h | h
        · exact hall j h
        · rw [h]; exact hn
      · exact Or.inr ⟨n, Nat.lt_succ_self n, hall, hn⟩
    · exact Or.inr ⟨k, Nat.lt_succ_of_lt hk, hpre, hbad⟩

theorem not_attaches_cases {dev : Device} {argv : List CStr} {k : Nat}
    (h : ¬ attaches dev argv k) :
    (pid_at argv k ≤ 0 ∨ pid_at argv k ≥ 0x1fff) ∨
    ((0 < pid_at argv k ∧ pid_at argv k < 0x1fff) ∧ dev.open_ret (k + 1) < 0) ∨
    ((0 < pid_at argv k ∧ pid_at argv k < 0x1fff) ∧ 0 ≤ dev.open_ret (k + 1) ∧
      dev.ioctl_ret (k + 1) < 0) := by
  unfold attaches at h
  omega

/-- C8: with at least two arguments, a failing frontend `open` or
`FE_SET_FRONTEND` makes `main` return 2 with no demux opened and no filter
installed; and a failing demux `open` or `DMX_SET_PES_FILTER` for the
identifier at position `k` makes `main` return 2 with no device call for any
later identifier.  In both cases the failing call is the last device call of
the run: it is not repeated and no status query follows. -/
theorem main_device_failure_fatal (argv : List CStr) (env : CStr → Option CStr)
    (dev : Device) (fuel : Nat) (hargc : 3 ≤ argv.length) :
    ((dev.open_ret 0 < 0 ∨ dev.ioctl_ret 0 < 0) →
      (main argv env dev fuel).1 = Outcome.exit 2 ∧
      device_calls (main argv env dev fuel).2.events =
        if dev.open_ret 0 < 0 then [Event.sys_open (dev_frontend env) OFlag.O_RDWR]
        else [Event.sys_open (dev_frontend env) OFlag.O_RDWR,
              Event.sys_ioctl (dev.open_ret 0) (Request.FE_SET_FRONTEND
                { frequency := fe_frequency argv, modulation := fe_modulation.VSB_8 })]) ∧
    (∀ k, k + 2 < argv.length → 0 ≤ dev.open_ret 0 → 0 ≤ dev.ioctl_ret 0 →
      (∀ j, j < k →
        (0 < pid_at argv j ∧ pid_at argv j < 0x1fff) ∧
        0 ≤ dev.open_ret (j + 1) ∧ 0 ≤ dev.ioctl_ret (j + 1)) →
      (0 < pid_at argv k ∧ pid_at argv k < 0x1fff) →
      (dev.open_ret (k + 1) < 0 ∨ dev.ioctl_ret (k + 1) < 0) →
      (main argv env dev fuel).1 = Outcome.exit 2 ∧
      device_calls (main argv env dev fuel).2.events =
        Event.sys_open (dev_frontend env) OFlag.O_RDWR
          :: Event.sys_ioctl (dev.open_ret 0) (Request.FE_SET_FRONTEND
              { frequency := fe_frequency argv, modulation := fe_modulation.VSB_8 })
          :: (attach_calls dev (dev_demux env) 1 (((argv.drop 2).take k).map atoi)
              ++ if dev.open_ret (k + 1) < 0 then
                   [Event.sys_open (dev_demux env) OFlag.O_RDONLY]
                 else
                   [Event.sys_open (dev_demux env) OFlag.O_RDONLY,
                    Event.sys_ioctl (dev.open_ret (k + 1))
                      (Request.DMX_SET_PES_FILTER (pes_filter (pid_at argv k).toNat))])) := by
  constructor
  · intro hfail
    by_cases ho : dev.open_ret 0 < 0
    · rw [main_frontend_open_fail argv env dev fuel hargc ho, if_pos ho]
      refine ⟨rfl, ?_⟩
      simp only [device_calls_append, device_calls_startup]
      rfl
    · have hi : dev.ioctl_ret 0 < 0 := by omega
      rw [main_tune_fail argv env dev fuel hargc (not_lt.mp ho) hi, if_neg ho]
      refine ⟨rfl, ?_⟩
      simp only [device_calls_append, device_calls_startup]
      rfl
  · intro k hk hfe htune hpre hr hfail
    have hu : toU16 (pid_at argv k) = (pid_at argv k).toNat :=
      toU16_of_range (by omega) (by omega)
    by_cases ho : dev.open_ret (k + 1) < 0
    · rw [main_open_fail_at argv env dev fuel k hargc hk hfe htune hpre hr ho, if_pos ho]
      refine ⟨rfl, ?_⟩
      simp only [device_calls_append,
        device_calls_world_after argv env dev k (fun j hj => (hpre j hj).1)]
      rfl
    · have hi : dev.ioctl_ret (k + 1) < 0 := by omega
      rw [main_ioctl_fail_at argv env dev fuel k hargc hk hfe htune hpre hr (not_lt.mp ho) hi,
        if_neg ho]
      refine ⟨rfl, ?_⟩
      simp only [device_calls_append,
        device_calls_world_after argv env dev k (fun j hj => (hpre j hj).1), hu]
      rfl

/-- C8 at `617028615 49 52`: once with the frontend `open` failing, once
with the `DMX_SET_PES_FILTER` of the first identifier failing. -/
theorem main_device_failure_fatal_witness :
    ((main ["dvb-pids-tune".toList, "617028615".toList, "49".toList, "52".toList]
        noEnv (failDev [0] []) 1).1 = Outcome.exit 2 ∧
      device_calls (main ["dvb-pids-tune".toList, "617028615".toList, "49".toList,
        "52".toList] noEnv (failDev [0] []) 1).2.events =
        [Event.sys_open "/dev/dvb/adapter0/frontend0".toList OFlag.O_RDWR]) ∧
    ((main ["dvb-pids-tune".toList, "617028615".toList, "49".toList, "52".toList]
        noEnv (failDev [] [1]) 1).1 = Outcome.exit 2 ∧
      device_calls (main ["dvb-pids-tune".toList, "617028615".toList, "49".toList,
        "52".toList] noEnv (failDev [] [1]) 1).2.events =
        [Event.sys_open "/dev/dvb/adapter0/frontend0".toList OFlag.O_RDWR,
         Event.sys_ioctl 3 (Request.FE_SET_FRONTEND
           { frequency := 617028615, modulation := fe_modulation.VSB_8 }),
         Event.sys_open "/dev/dvb/adapter0/demux0".toList OFlag.O_RDONLY,
         Event.sys_ioctl 4 (Request.DMX_SET_PES_FILTER (pes_filter 49))]) := by
  have ha := (main_device_failure_fatal
    ["dvb-pids-tune".toList, "617028615".toList, "49".toList, "52".toList] noEnv
    (failDev [0] []) 1 (by decide)).1 (by decide)
  have hb := (main_device_failure_fatal
    ["dvb-pids-tune".toList, "617028615".toList, "49".toList, "52".toList] noEnv
    (failDev [] [1]) 1 (by decide)).2 0 (by decide) (by decide) (by decide)
    (fun j hj => absurd hj (Nat.not_lt_zero j)) (by decide) (by decide)
  refine ⟨⟨ha.1, ?_⟩, ⟨hb.1, ?_⟩⟩
  · rw [ha.2]; decide
  · rw [hb.2]; decide

theorem attach_calls_append (dev : Device) (demux : CStr) (l1 l2 : List Int) :
    ∀ n, attach_calls dev demux n (l1 ++ l2) =
      attach_calls dev demux n l1 ++ attach_calls dev demux (n + l1.length) l2 := by
  induction l1 with
  | nil => intro n; rfl
  | cons a l ih =>
    intro n
    have e : n + (a :: l).length = n + 1 + l.length := by
      simp only [List.length_cons]
      omega
    rw [e, List.cons_append, attach_calls, attach_calls, ih (n + 1), List.cons_append,
      List.cons_append]

theorem take_split (l : List CStr) (k m : Nat) (hkm : k < m) (hk : k < l.length) :
    l.take m = l.take k ++ l.getD k [] :: (l.drop (k + 1)).take (m - k - 1) := by
  have h1 : m = k + ((m - k - 1) + 1) := by omega
  conv_lhs => rw [h1, List.take_add, List.drop_eq_getElem_cons hk, List.take_succ_cons]
  rw [List.getD_eq_getElem l [] hk]

theorem attach_calls_take_split (dev : Device) (demux : CStr) (argv : List CStr) (k m : Nat)
    (hkm : k < m) (hk : k + 2 < argv.length) :
    ∃ rest, attach_calls dev demux 1 (((argv.drop 2).take m).map atoi) =
      attach_calls dev demux 1 (((argv.drop 2).take k).map atoi)
        ++ Event.sys_open demux OFlag.O_RDONLY
        :: Event.sys_ioctl (dev.open_ret (k + 1))
            (Request.DMX_SET_PES_FILTER (pes_filter (pid_at argv k).toNat))
        :: rest := by
  have hk2 : k < (argv.drop 2).length := by
    rw [List.length_drop]
    omega
  have hlen : (((argv.drop 2).take k).map atoi).length = k := by
    rw [List.length_map, List.length_take]
    omega
  have hg : (argv.drop 2).getD k [] = argv.getD (k + 2) [] := by
    simp only [List.getD_eq_getElem?_getD, List.getElem?_drop, Nat.add_comm 2 k]
  rw [take_split (argv.drop 2) k m hkm hk2, List.map_append, attach_calls_append, hlen,
    List.map_cons, attach_calls, hg, Nat.add_comm 1 k]
  exact ⟨_, rfl⟩

theorem attach_calls_take_le (dev : Device) (demux : CStr) (argv : List CStr) (k m : Nat)
    (hkm : k ≤ m) :
    attach_calls dev demux 1 (((argv.drop 2).take k).map atoi) <+:
      attach_calls dev demux 1 (((argv.drop 2).take m).map atoi) := by
  have h : (argv.drop 2).take m =
      (argv.drop 2).take k ++ ((argv.drop 2).drop k).take (m - k) := by
    have h1 : m = k + (m - k) := by omega
    conv_lhs => rw [h1, List.take_add]
  rw [h, List.map_append, attach_calls_append]
  exact List.prefix_append _ _

/-- C2, amended: with at least two arguments and an identifier at
position `m` with `pid <= 0` or `pid >= 0x1FFF`, whatever the device answers,
`main` returns 2 and never reaches the status loop, and its device calls are an
initial part of: open of the frontend, `FE_SET_FRONTEND`, and the attachments
of the identifiers before position `m`; there is no device call for the
identifier at position `m` or for a later one.  The rejection does not come
before the device is touched: when the frontend `open` and `FE_SET_FRONTEND`
succeed and every identifier before position `m` is in range and attaches,
the device calls of the run are exactly that whole sequence. -/
theorem main_bad_identifier_aborts (argv : List CStr) (env : CStr → Option CStr)
    (dev : Device) (fuel m : Nat) (hargc : 3 ≤ argv.length) (hm : m + 2 < argv.length)
    (hbad : pid_at argv m ≤ 0 ∨ pid_at argv m ≥ 0x1fff) :
    (main argv env dev fuel).1 = Outcome.exit 2 ∧
    device_calls (main argv env dev fuel).2.events <+:
      Event.sys_open (dev_frontend env) OFlag.O_RDWR
        :: Event.sys_ioctl (dev.open_ret 0)
            (Request.FE_SET_FRONTEND
              { frequency := fe_frequency argv, modulation := fe_modulation.VSB_8 })
        :: attach_calls dev (dev_demux env) 1 (((argv.drop 2).take m).map atoi) ∧
    (0 ≤ dev.open_ret 0 → 0 ≤ dev.ioctl_ret 0 →
      (∀ j, j < m →
        (0 < pid_at argv j ∧ pid_at argv j < 0x1fff) ∧
        0 ≤ dev.open_ret (j + 1) ∧ 0 ≤ dev.ioctl_ret (j + 1)) →
      device_calls (main argv env dev fuel).2.events =
        Event.sys_open (dev_frontend env) OFlag.O_RDWR
          :: Event.sys_ioctl (dev.open_ret 0)
              (Request.FE_SET_FRONTEND
                { frequency := fe_frequency argv, modulation := fe_modulation.VSB_8 })
          :: attach_calls dev (dev_demux env) 1 (((argv.drop 2).take m).map atoi)) := by
  have hbound : (main argv env dev fuel).1 = Outcome.exit 2 ∧
      device_calls (main argv env dev fuel).2.events <+:
        Event.sys_open (dev_frontend env) OFlag.O_RDWR
          :: Event.sys_ioctl (dev.open_ret 0)
              (Request.FE_SET_FRONTEND
                { frequency := fe_frequency argv, modulation := fe_modulation.VSB_8 })
          :: attach_calls dev (dev_demux env) 1 (((argv.drop 2).take m).map atoi) := by
    by_cases hfe : dev.open_ret 0 < 0
    · rw [main_frontend_open_fail argv env dev fuel hargc hfe]
      refine ⟨rfl, ?_⟩
      simp only [device_calls_append, device_calls_startup]
      exact ⟨_, rfl⟩
    by_cases htune : dev.ioctl_ret 0 < 0
    · rw [main_tune_fail argv env dev fuel hargc (not_lt.mp hfe) htune]
      refine ⟨rfl, ?_⟩
      simp only [device_calls_append, device_calls_startup]
      exact ⟨_, rfl⟩
    have hfe2 := not_lt.mp hfe
    have htune2 := not_lt.mp htune
    rcases first_failure dev argv (m + 1) with hall | ⟨k, hk, hpre, hnot⟩
    · exact absurd (hall m (Nat.lt_succ_self m)).1 (by omega)
    · have hkm : k ≤ m := Nat.lt_succ_iff.mp hk
      have hk2 : k + 2 < argv.length := by omega
      have hrange : ∀ j, j < k → 0 < pid_at argv j ∧ pid_at argv j < 0x1fff :=
        fun j hj => (hpre j hj).1
      rcases not_attaches_cases hnot with hb | ⟨hr, ho⟩ | ⟨hr, ho, hi⟩
      · rw [main_bad_at argv env dev fuel k hargc hk2 hfe2 htune2 hpre hb]
        refine ⟨rfl, ?_⟩
        simp only [device_calls_append, device_calls_world_after argv env dev k hrange]
        simp only [device_calls, List.filter, List.append_nil]
        exact (List.prefix_cons_inj _).mpr ((List.prefix_cons_inj _).mpr
          (attach_calls_take_le dev (dev_demux env) argv k m hkm))
      · have hlt : k < m := by
          rcases Nat.lt_or_eq_of_le hkm with h | h
          · exact h
          · rw [h] at hr; omega
        obtain ⟨rest, hrest⟩ := attach_calls_take_split dev (dev_demux env) argv k m hlt hk2
        rw [main_open_fail_at argv env dev fuel k hargc hk2 hfe2 htune2 hpre hr ho, hrest]
        refine ⟨rfl, ?_⟩
        simp only [device_calls_append, device_calls_world_after argv env dev k hrange]
        simp only [device_calls, List.filter, List.cons_append]
        refine (List.prefix_cons_inj _).mpr ((List.prefix_cons_inj _).mpr ?_)
        exact ⟨_ :: rest, by
          simp only [List.append_assoc, List.cons_append, List.nil_append]
          rfl⟩
      · have hlt : k < m := by
          rcases Nat.lt_or_eq_of_le hkm with h | h
          · exact h
          · rw [h] at hr; omega
        have hu : toU16 (pid_at argv k) = (pid_at argv k).toNat :=
          toU16_of_range (by omega) (by omega)
        obtain ⟨rest, hrest⟩ := attach_calls_take_split dev (dev_demux env) argv k m hlt hk2
        rw [main_ioctl_fail_at argv env dev fuel k hargc hk2 hfe2 htune2 hpre hr ho hi, hrest]
        refine ⟨rfl, ?_⟩
        simp only [device_calls_append, device_calls_world_after argv env dev k hrange, hu]
        simp only [device_calls, List.filter, List.cons_append]
        refine (List.prefix_cons_inj _).mpr ((List.prefix_cons_inj _).mpr ?_)
        exact ⟨rest, by simp only [List.append_assoc, List.cons_append, List.nil_append]⟩
  refine ⟨hbound.1, hbound.2, ?_⟩
  intro hfe htune hpre
  rw [main_bad_at argv env dev fuel m hargc hm hfe htune hpre hbad]
  simp only [device_calls_append,
    device_calls_world_after argv env dev m (fun j hj => (hpre j hj).1)]
  simp only [device_calls, List.filter, List.append_nil]

/-- C2, amended, at `617028615 49 8191` on a device where every call
succeeds: the bad identifier is at position 1, and the run is abandoned after
the frontend was opened and tuned and the filter for 49 installed. -/
theorem main_bad_identifier_aborts_witness :
    (main (args ["617028615", "49", "8191"]) noEnv okDev 1).1 = Outcome.exit 2 ∧
    device_calls (main (args ["617028615", "49", "8191"]) noEnv okDev 1).2.events <+:
      [Event.sys_open "/dev/dvb/adapter0/frontend0".toList OFlag.O_RDWR,
       Event.sys_ioctl 3 (Request.FE_SET_FRONTEND
         { frequency := 617028615, modulation := fe_modulation.VSB_8 }),
       Event.sys_open "/dev/dvb/adapter0/demux0".toList OFlag.O_RDONLY,
       Event.sys_ioctl 4 (Request.DMX_SET_PES_FILTER (pes_filter 49))] ∧
    device_calls (main (args ["617028615", "49", "8191"]) noEnv okDev 1).2.events =
      [Event.sys_open "/dev/dvb/adapter0/frontend0".toList OFlag.O_RDWR,
       Event.sys_ioctl 3 (Request.FE_SET_FRONTEND
         { frequency := 617028615, modulation := fe_modulation.VSB_8 }),
       Event.sys_open "/dev/dvb/adapter0/demux0".toList OFlag.O_RDONLY,
       Event.sys_ioctl 4 (Request.DMX_SET_PES_FILTER (pes_filter 49))] := by
  have h := main_bad_identifier_aborts (args ["617028615", "49", "8191"]) noEnv okDev 1 1
    (by decide) (by decide) (by decide)
  have hl : (Event.sys_open (dev_frontend noEnv) OFlag.O_RDWR
      :: Event.sys_ioctl (okDev.open_ret 0)
          (Request.FE_SET_FRONTEND
            { frequency := fe_frequency (args ["617028615", "49", "8191"]),
              modulation := fe_modulation.VSB_8 })
      :: attach_calls okDev (dev_demux noEnv) 1
          ((((args ["617028615", "49", "8191"]).drop 2).take 1).map atoi)) =
      [Event.sys_open "/dev/dvb/adapter0/frontend0".toList OFlag.O_RDWR,
       Event.sys_ioctl 3 (Request.FE_SET_FRONTEND
         { frequency := 617028615, modulation := fe_modulation.VSB_8 }),
       Event.sys_open "/dev/dvb/adapter0/demux0".toList OFlag.O_RDONLY,
       Event.sys_ioctl 4 (Request.DMX_SET_PES_FILTER (pes_filter 49))] := by
    decide
  have h3 := h.2.2 (by decide) (by decide) (by decide)
  rw [hl] at h3
  have h2 := h.2.1
  rw [hl] at h2
  exact ⟨h.1, h2, h3⟩

/-- C2 as stated fails at `617028615 49 8191`: the list contains the
out-of-range identifier 8191, and yet the frontend is opened and tuned and the
filter for 49 is installed before the run is abandoned. -/
theorem bad_identifier_after_device_calls :
    pid_at ["dvb-pids-tune".toList, "617028615".toList, "49".toList, "8191".toList] 1
      ≥ 0x1fff ∧
    device_calls (main ["dvb-pids-tune".toList, "617028615".toList, "49".toList,
      "8191".toList] noEnv okDev 1).2.events =
      [Event.sys_open "/dev/dvb/adapter0/frontend0".toList OFlag.O_RDWR,
       Event.sys_ioctl 3 (Request.FE_SET_FRONTEND
         { frequency := 617028615, modulation := fe_modulation.VSB_8 }),
       Event.sys_open "/dev/dvb/adapter0/demux0".toList OFlag.O_RDONLY,
       Event.sys_ioctl 4 (Request.DMX_SET_PES_FILTER (pes_filter 49))] ∧
    device_calls (main ["dvb-pids-tune".toList, "617028615".toList, "49".toList,
      "8191".toList] noEnv okDev 1).2.events ≠ [] := by
  decide

theorem main_all_attach (argv : List CStr) (env : CStr → Option CStr) (dev : Device)
    (fuel : Nat) (hargc : 3 ≤ argv.length) (hfe : 0 ≤ dev.open_ret 0)
    (htune : 0 ≤ dev.ioctl_ret 0)
    (hall : ∀ j, j < argv.length - 2 → attaches dev argv j) :
    (main argv env dev fuel).1 = Outcome.polling := by
  rw [main_after_attached argv env dev fuel (argv.length - 2) hargc (by omega) hfe htune hall,
    List.drop_of_length_le (by omega)]
  rfl

/-- C10, amended: in a run with at least two arguments, what first goes
wrong decides what is written to the error stream, and `main` returns 2:
a failed frontend `open` gives the diagnostic of `setup_frontend` naming the
path, then that of `main`; a failed `FE_SET_FRONTEND` gives the diagnostic of
`setup_frontend` naming the request, then that of `main`; and once the frontend
is set up and the identifiers before position `k` are attached, an identifier
out of range at position `k` gives the single out-of-range diagnostic, a failed
demux `open` the diagnostic of `add_pes_filter` naming the path, then that of
`main` naming the identifier, and a failed `DMX_SET_PES_FILTER` the diagnostic
of `add_pes_filter` naming the identifier, then that of `main`.  Every run that
does not reach the status loop is one of these five. -/
theorem main_failure_diagnostics (argv : List CStr) (env : CStr → Option CStr)
    (dev : Device) (fuel : Nat) (hargc : 3 ≤ argv.length) :
    (dev.open_ret 0 < 0 →
      (main argv env dev fuel).1 = Outcome.exit 2 ∧
      stderr_texts (main argv env dev fuel).2.events =
        [err_open (dev_frontend env), err_frontend]) ∧
    (0 ≤ dev.open_ret 0 → dev.ioctl_ret 0 < 0 →
      (main argv env dev fuel).1 = Outcome.exit 2 ∧
      stderr_texts (main argv env dev fuel).2.events = [err_tune, err_frontend]) ∧
    (∀ k, k + 2 < argv.length → 0 ≤ dev.open_ret 0 → 0 ≤ dev.ioctl_ret 0 →
      (∀ j, j < k →
        (0 < pid_at argv j ∧ pid_at argv j < 0x1fff) ∧
        0 ≤ dev.open_ret (j + 1) ∧ 0 ≤ dev.ioctl_ret (j + 1)) →
      ((pid_at argv k ≤ 0 ∨ pid_at argv k ≥ 0x1fff) →
        (main argv env dev fuel).1 = Outcome.exit 2 ∧
        stderr_texts (main argv env dev fuel).2.events = [err_range (pid_at argv k)]) ∧
      ((0 < pid_at argv k ∧ pid_at argv k < 0x1fff) → dev.open_ret (k + 1) < 0 →
        (main argv env dev fuel).1 = Outcome.exit 2 ∧
        stderr_texts (main argv env dev fuel).2.events =
          [err_open (dev_demux env), err_add (pid_at argv k) (argv.getD (k + 2) [])]) ∧
      ((0 < pid_at argv k ∧ pid_at argv k < 0x1fff) → 0 ≤ dev.open_ret (k + 1) →
        dev.ioctl_ret (k + 1) < 0 →
        (main argv env dev fuel).1 = Outcome.exit 2 ∧
        stderr_texts (main argv env dev fuel).2.events =
          [err_filter (pid_at argv k),
           err_add (pid_at argv k) (argv.getD (k + 2) [])])) ∧
    ((main argv env dev fuel).1 ≠ Outcome.polling →
      dev.open_ret 0 < 0 ∨
      (0 ≤ dev.open_ret 0 ∧ dev.ioctl_ret 0 < 0) ∨
      ∃ k, k + 2 < argv.length ∧ 0 ≤ dev.open_ret 0 ∧ 0 ≤ dev.ioctl_ret 0 ∧
        (∀ j, j < k →
          (0 < pid_at argv j ∧ pid_at argv j < 0x1fff) ∧
          0 ≤ dev.open_ret (j + 1) ∧ 0 ≤ dev.ioctl_ret (j + 1)) ∧
        ((pid_at argv k ≤ 0 ∨ pid_at argv k ≥ 0x1fff) ∨
         ((0 < pid_at argv k ∧ pid_at argv k < 0x1fff) ∧ dev.open_ret (k + 1) < 0) ∨
         ((0 < pid_at argv k ∧ pid_at argv k < 0x1fff) ∧ 0 ≤ dev.open_ret (k + 1) ∧
           dev.ioctl_ret (k + 1) < 0))) := by
  have hst : stderr_texts (startup_events env) = [] := rfl
  refine ⟨?_, ?_, ?_, ?_⟩
  · intro hfe
    rw [main_frontend_open_fail argv env dev fuel hargc hfe]
    refine ⟨rfl, ?_⟩
    simp only [stderr_texts_append, hst]
    rfl
  · intro hfe htune
    rw [main_tune_fail argv env dev fuel hargc hfe htune]
    refine ⟨rfl, ?_⟩
    simp only [stderr_texts_append, hst]
    rfl
  · intro k hk hfe htune hpre
    refine ⟨?_, ?_, ?_⟩
    · intro hb
      rw [main_bad_at argv env dev fuel k hargc hk hfe htune hpre hb]
      refine ⟨rfl, ?_⟩
      simp only [stderr_texts_append, stderr_texts_world_after]
      rfl
    · intro hr ho
      rw [main_open_fail_at argv env dev fuel k hargc hk hfe htune hpre hr ho]
      refine ⟨rfl, ?_⟩
      simp only [stderr_texts_append, stderr_texts_world_after]
      rfl
    · intro hr ho hi
      rw [main_ioctl_fail_at argv env dev fuel k hargc hk hfe htune hpre hr ho hi]
      refine ⟨rfl, ?_⟩
      simp only [stderr_texts_append, stderr_texts_world_after]
      rfl
  · intro hfail
    by_cases hfe : dev.open_ret 0 < 0
    · exact Or.inl hfe
    by_cases htune : dev.ioctl_ret 0 < 0
    · exact Or.inr (Or.inl ⟨not_lt.mp hfe, htune⟩)
    have hfe2 := not_lt.mp hfe
    have htune2 := not_lt.mp htune
    rcases first_failure dev argv (argv.length - 2) with hall | ⟨k, hk, hpre, hnot⟩
    · exact absurd (main_all_attach argv env dev fuel hargc hfe2 htune2 hall) hfail
    · exact Or.inr (Or.inr ⟨k, by omega, hfe2, htune2, hpre, not_attaches_cases hnot⟩)

/-- C10, amended, at five failing runs, one per cause: `617028615 8191`
with the frontend `open` failing (two lines, none about 8191), `617028615 49 52`
with `FE_SET_FRONTEND` failing, `617028615 0 8191` (the line names 0, the first
bad identifier), `617028615 49 8191` with the demux `open` failing (two lines
about 49), and `617028615 49 52` with the `DMX_SET_PES_FILTER` for 49
failing. -/
theorem main_failure_diagnostics_witness :
    ((main (args ["617028615", "8191"]) noEnv (failDev [0] []) 1).1 = Outcome.exit 2 ∧
      stderr_texts (main (args ["617028615", "8191"]) noEnv (failDev [0] []) 1).2.events =
        ["error: failed opening '/dev/dvb/adapter0/frontend0'\n".toList,
         "error: failed setting up frontend\n".toList]) ∧
    ((main (args ["617028615", "49", "52"]) noEnv (failDev [] [0]) 1).1 = Outcome.exit 2 ∧
      stderr_texts (main (args ["617028615", "49", "52"]) noEnv (failDev [] [0]) 1).2.events =
        ["error: ioctl(FE_SET_FRONTEND) failed\n".toList,
         "error: failed setting up frontend\n".toList]) ∧
    ((main (args ["617028615", "0", "8191"]) noEnv okDev 1).1 = Outcome.exit 2 ∧
      stderr_texts (main (args ["617028615", "0", "8191"]) noEnv okDev 1).2.events =
        ["error: pid out of range: 0\n".toList]) ∧
    ((main (args ["617028615", "49", "8191"]) noEnv (failDev [1] []) 1).1 = Outcome.exit 2 ∧
      stderr_texts (main (args ["617028615", "49", "8191"]) noEnv (failDev [1] []) 1).2.events =
        ["error: failed opening '/dev/dvb/adapter0/demux0'\n".toList,
         "error: failed adding pes filter for pid 49 ('49')\n".toList]) ∧
    ((main (args ["617028615", "49", "52"]) noEnv (failDev [] [1]) 1).1 = Outcome.exit 2 ∧
      stderr_texts (main (args ["617028615", "49", "52"]) noEnv (failDev [] [1]) 1).2.events =
        ["error: ioctl(DMX_SET_PES_FILTER) for pid 49 (0x0031) failed\n".toList,
         "error: failed adding pes filter for pid 49 ('49')\n".toList]) ∧
    ((failDev [0] []).open_ret 0 < 0 ∨
      (0 ≤ (failDev [0] []).open_ret 0 ∧ (failDev [0] []).ioctl_ret 0 < 0) ∨
      ∃ k, k + 2 < (args ["617028615", "8191"]).length ∧
        0 ≤ (failDev [0] []).open_ret 0 ∧ 0 ≤ (failDev [0] []).ioctl_ret 0 ∧
        (∀ j, j < k →
          (0 < pid_at (args ["617028615", "8191"]) j ∧
            pid_at (args ["617028615", "8191"]) j < 0x1fff) ∧
          0 ≤ (failDev [0] []).open_ret (j + 1) ∧ 0 ≤ (failDev [0] []).ioctl_ret (j + 1)) ∧
        ((pid_at (args ["617028615", "8191"]) k ≤ 0 ∨
            pid_at (args ["617028615", "8191"]) k ≥ 0x1fff) ∨
         ((0 < pid_at (args ["617028615", "8191"]) k ∧
            pid_at (args ["617028615", "8191"]) k < 0x1fff) ∧
            (failDev [0] []).open_ret (k + 1) < 0) ∨
         ((0 < pid_at (args ["617028615", "8191"]) k ∧
            pid_at (args ["617028615", "8191"]) k < 0x1fff) ∧
            0 ≤ (failDev [0] []).open_ret (k + 1) ∧
            (failDev [0] []).ioctl_ret (k + 1) < 0))) := by
  have h1 := (main_failure_diagnostics (args ["617028615", "8191"]) noEnv
    (failDev [0] []) 1 (by decide)).1 (by decide)
  have h2 := (main_failure_diagnostics (args ["617028615", "49", "52"]) noEnv
    (failDev [] [0]) 1 (by decide)).2.1 (by decide) (by decide)
  have h3 := ((main_failure_diagnostics (args ["617028615", "0", "8191"]) noEnv
    okDev 1 (by decide)).2.2.1 0 (by decide) (by decide) (by decide)
    (fun j hj => absurd hj (Nat.not_lt_zero j))).1 (by decide)
  have h4 := ((main_failure_diagnostics (args ["617028615", "49", "8191"]) noEnv
    (failDev [1] []) 1 (by decide)).2.2.1 0 (by decide) (by decide) (by decide)
    (fun j hj => absurd hj (Nat.not_lt_zero j))).2.1 (by decide) (by decide)
  have h5 := ((main_failure_diagnostics (args ["617028615", "49", "52"]) noEnv
    (failDev [] [1]) 1 (by decide)).2.2.1 0 (by decide) (by decide) (by decide)
    (fun j hj => absurd hj (Nat.not_lt_zero j))).2.2 (by decide) (by decide) (by decide)
  have h6 := (main_failure_diagnostics (args ["617028615", "8191"]) noEnv
    (failDev [0] []) 1 (by decide)).2.2.2 (by decide)
  exact ⟨⟨h1.1, h1.2.trans (by decide)⟩, ⟨h2.1, h2.2.trans (by decide)⟩,
    ⟨h3.1, h3.2.trans (by decide)⟩, ⟨h4.1, h4.2.trans (by decide)⟩,
    ⟨h5.1, h5.2.trans (by decide)⟩, h6⟩

/-- C10 as stated fails at `617028615 49 52` when the frontend cannot be
opened: the error stream receives two lines, the diagnostic of
`setup_frontend` and then that of `main`. -/
theorem frontend_failure_two_diagnostics :
    (main ["dvb-pids-tune".toList, "617028615".toList, "49".toList, "52".toList]
      noEnv (failDev [0] []) 1).1 = Outcome.exit 2 ∧
    stderr_texts (main ["dvb-pids-tune".toList, "617028615".toList, "49".toList,
      "52".toList] noEnv (failDev [0] []) 1).2.events =
      ["error: failed opening '/dev/dvb/adapter0/frontend0'\n".toList,
       "error: failed setting up frontend\n".toList] ∧
    ((stderr_texts (main ["dvb-pids-tune".toList, "617028615".toList, "49".toList,
      "52".toList] noEnv (failDev [0] []) 1).2.events).flatten.count '\n') = 2 := by
  decide

/-- C3 fails at `DVB_STATUS_USECS=-5`: unset and `"0"` give the default
1000000, but for `"-5"` `atoi` gives -5, which stored in the `unsigned int i`
is 4294967291 and passes the test `i > 0`, so the override is not ignored and
every pass of the status loop sleeps 4294967291 microseconds, not 1000000. -/
theorem status_usecs_negative_override :
    status_usecs none = 1000000 ∧
    status_usecs (some "0".toList) = 1000000 ∧
    status_usecs (some "-5".toList) = 4294967291 ∧
    sleeps (main ["dvb-pids-tune".toList, "617028615".toList, "49".toList]
      (env1 "DVB_STATUS_USECS" "-5") okDev 2).2.events = [4294967291, 4294967291] := by
  decide

theorem main_for_status (dev : Device) (demux : CStr) (args : List CStr) :
    ∀ w, (main_for dev demux args w).1 = none ∨ (main_for dev demux args w).1 = some 2 := by
  induction args with
  | nil => intro w; exact Or.inl rfl
  | cons a rest ih =>
    intro w
    rw [main_for]
    by_cases hr : atoi a ≤ 0 ∨ atoi a ≥ 0x1fff
    · rw [if_pos hr]
      exact Or.inr rfl
    · rw [if_neg hr]
      by_cases ha : (add_pes_filter dev w demux (atoi a)).1 < 0
      · rw [if_pos ha]
        exact Or.inr rfl
      · rw [if_neg ha]
        exact ih _

theorem main_never_exits_3 (argv : List CStr) (env : CStr → Option CStr) (dev : Device)
    (fuel : Nat) : (main argv env dev fuel).1 ≠ Outcome.exit 3 := by
  by_cases hargc : argv.length < 3
  · rw [main_of_few_args argv env dev fuel hargc]
    exact fun h => absurd (Outcome.exit.inj h) (by decide)
  · rw [main_of_argc argv env dev fuel (by omega)]
    generalize setup_frontend dev { events := startup_events env, opens := 0, ioctls := 0 }
      (dev_frontend env) (toI32 (fe_frequency argv)) = sf
    by_cases hf : sf.1 < 0
    · rw [if_pos hf]
      exact fun h => absurd (Outcome.exit.inj h) (by decide)
    · rw [if_neg hf]
      have hs := main_for_status dev (dev_demux env) (argv.drop 2) sf.2
      generalize main_for dev (dev_demux env) (argv.drop 2) sf.2 = mf at hs
      rcases mf with ⟨_ | status, w⟩
      · exact fun h => Outcome.noConfusion h
      · rcases hs with hs | hs
        · cases hs
        · have h2 : status = 2 := Option.some.inj hs
          rw [h2]
          exact fun h => absurd (Outcome.exit.inj h) (by decide)

/-- C4 fails at `DVB_ADAPTER=1000000`: the formatted frontend path
`/dev/dvb/adapter1000000/frontend0` has 33 characters, `snprintf` returns 33,
which passes the test `<= 0`, and `main` goes on with the path cut to 31
characters: it opens `/dev/dvb/adapter1000000/fronten` and reaches the status
loop.  `main` returns 3 on no input at all. -/
theorem truncated_path_not_fatal :
    (fmt_frontend (getenv_id (env1 "DVB_ADAPTER" "1000000") "DVB_ADAPTER".toList)
      (getenv_id (env1 "DVB_ADAPTER" "1000000") "DVB_FRONTEND".toList)).length = 33 ∧
    (main ["dvb-pids-tune".toList, "617028615".toList, "49".toList]
      (env1 "DVB_ADAPTER" "1000000") okDev 0).1 = Outcome.polling ∧
    device_calls (main ["dvb-pids-tune".toList, "617028615".toList, "49".toList]
      (env1 "DVB_ADAPTER" "1000000") okDev 0).2.events =
      [Event.sys_open "/dev/dvb/adapter1000000/fronten".toList OFlag.O_RDWR,
       Event.sys_ioctl 3 (Request.FE_SET_FRONTEND
         { frequency := 617028615, modulation := fe_modulation.VSB_8 }),
       Event.sys_open "/dev/dvb/adapter1000000/demux0".toList OFlag.O_RDONLY,
       Event.sys_ioctl 4 (Request.DMX_SET_PES_FILTER (pes_filter 49))] ∧
    (∀ argv env dev fuel, (main argv env dev fuel).1 ≠ Outcome.exit 3) :=
  ⟨by decide, by decide, by decide, main_never_exits_3⟩

end DvbPids
